import Mathlib

/-!
# The Backup and DR data-source binding: response flattening and `Read`

A shallow embedding of
`google/services/backupdr/data_source_backup_dr_data_source.go`.

* Go's `interface{}` holding a decoded JSON document is the type `Value`.
* A single-value type assertion `v.(T)` that fails is a run-time panic; the
  record flatteners therefore return `Except String Value`, the error being
  the message of the panic.
* The `d *schema.ResourceData` and `config` arguments of the flatteners are
  never used by their bodies and are left out.
* `Read` is state passing over the attribute store; the SDK helpers it calls
  are the fields of `Collaborators`.
-/

namespace BackupDR

/-! ## Decoded JSON values -/

/-- A dynamically typed Go value as produced by `encoding/json` when decoding
into `interface{}`: `nil`, `string`, `float64`, `bool`,
`map[string]interface{}` or `[]interface{}`.  A `float64` is carried by its
IEEE-754 bit pattern; no function of the file looks inside a number.  The
entries of a map are kept as an association list. -/
inductive Value where
  | null
  | str (s : String)
  | number (bits : Nat)
  | bool (b : Bool)
  | map (entries : List (String × Value))
  | list (items : List Value)

namespace Value

/-- The test `v == nil` on an `interface{}`. -/
def isNil : Value → Bool
  | null => true
  | _ => false

/-- The name the Go run time prints for the dynamic type of a value. -/
def goType : Value → String
  | null => "nil"
  | str _ => "string"
  | number _ => "float64"
  | bool _ => "bool"
  | map _ => "map[string]interface \x7b\x7d"
  | list _ => "[]interface \x7b\x7d"

end Value

/-- The message of the panic raised by a failed type assertion `v.(want)`. -/
def conversionPanic (v : Value) (want : String) : String :=
  "interface conversion: interface \x7b\x7d is " ++ v.goType ++ ", not " ++ want

/-- The type assertion `v.(map[string]interface{})`. -/
def assertMap (v : Value) : Except String (List (String × Value)) :=
  match v with
  | .map entries => .ok entries
  | _ => .error (conversionPanic v "map[string]interface \x7b\x7d")

/-- The type assertion `v.(string)`. -/
def assertString (v : Value) : Except String String :=
  match v with
  | .str s => .ok s
  | _ => .error (conversionPanic v "string")

/-- The map index expression `m[key]`: the value stored under `key`, and `nil`
(the zero value of `interface{}`) when the key is absent. -/
def index (m : List (String × Value)) (key : String) : Value :=
  match m.lookup key with
  | some v => v
  | none => .null

/-- The built-in `len(m)` of a map. -/
def len (m : List (String × Value)) : Nat := m.length

/-! ## Leaf flatteners of the top level -/

def flattenDataSourceBackupDRDataSourceName (v : Value) : Value := v

def flattenDataSourceBackupDRDataSourceCreateTime (v : Value) : Value := v

def flattenDataSourceBackupDRDataSourceUpdateTime (v : Value) : Value := v

def flattenDataSourceBackupDRDataSourceBackupCount (v : Value) : Value := v

def flattenDataSourceBackupDRDataSourceEtag (v : Value) : Value := v

def flattenDataSourceBackupDRDataSourceState (v : Value) : Value := v

def flattenDataSourceBackupDRDataSourceTotalStoredBytes (v : Value) : Value := v

/-! ## `backup_config_info` -/

def flattenDataSourceBackupDRDataSourceConfigInfoLastBackupState (v : Value) : Value := v

def flattenDataSourceBackupDRDataSourceConfigInfoLastSuccessfulBackupConsistencyTime
    (v : Value) : Value := v

def flattenDataSourceBackupDRDataSourceConfigInfoLastBackupError (v : Value) : Value := v

def flattenBackupDRDataSourceConfigInfoGCPBackupConfigBackupPlan (v : Value) : Value := v

def flattenBackupDRDataSourceConfigInfoGCPBackupConfigBackupPlanDescription
    (v : Value) : Value := v

def flattenBackupDRDataSourceConfigInfoGCPBackupConfigBackupPlanAssociation
    (v : Value) : Value := v

def flattenBackupDRDataSourceConfigInfoGCPBackupConfigBackupPlanRules (v : Value) : Value := v

def flattenBackupDRDataSourceConfigInfoGCPBackupConfigBackupApplianceBackupConfigBackupApplianceName
    (v : Value) : Value := v

def flattenBackupDRDataSourceConfigInfoGCPBackupConfigBackupApplianceBackupConfigBackupApplianceId
    (v : Value) : Value := v

def flattenBackupDRDataSourceConfigInfoGCPBackupConfigBackupApplianceBackupConfigSlaId
    (v : Value) : Value := v

def flattenBackupDRDataSourceConfigInfoGCPBackupConfigBackupApplianceBackupConfigApplicationName
    (v : Value) : Value := v

def flattenBackupDRDataSourceConfigInfoGCPBackupConfigBackupApplianceBackupConfigSltName
    (v : Value) : Value := v

def flattenBackupDRDataSourceConfigInfoGCPBackupConfigBackupApplianceBackupConfigSlpName
    (v : Value) : Value := v

/-- The record flattener of `backup_appliance_backup_config`.  The entries of
`transformed` are listed in the order of the assignments; their keys are
pairwise distinct literals. -/
def flattenBackupDRDataSourceConfigInfoBackupApplianceBackupConfig
    (v : Value) : Except String Value :=
  if v.isNil then .ok v else
  match assertMap v with
  | .error p => .error p
  | .ok original =>
    if len original == 0 then .ok .null else
    .ok (.list [.map [
      ("backup_appliance_name",
        flattenBackupDRDataSourceConfigInfoGCPBackupConfigBackupApplianceBackupConfigBackupApplianceName
          (index original "backupApplianceName")),
      ("backup_appliance_id",
        flattenBackupDRDataSourceConfigInfoGCPBackupConfigBackupApplianceBackupConfigBackupApplianceId
          (index original "backupApplianceId")),
      ("sla_id",
        flattenBackupDRDataSourceConfigInfoGCPBackupConfigBackupApplianceBackupConfigSlaId
          (index original "slaId")),
      ("application_name",
        flattenBackupDRDataSourceConfigInfoGCPBackupConfigBackupApplianceBackupConfigApplicationName
          (index original "applicationName")),
      ("slt_name",
        flattenBackupDRDataSourceConfigInfoGCPBackupConfigBackupApplianceBackupConfigSltName
          (index original "sltName")),
      ("slp_name",
        flattenBackupDRDataSourceConfigInfoGCPBackupConfigBackupApplianceBackupConfigSlpName
          (index original "slpName"))]])

/-- The record flattener of `gcp_backup_config`. -/
def flattenBackupDRDataSourceConfigInfoGCPBackupConfig (v : Value) : Except String Value :=
  if v.isNil then .ok v else
  match assertMap v with
  | .error p => .error p
  | .ok original =>
    if len original == 0 then .ok .null else
    .ok (.list [.map [
      ("backup_plan",
        flattenBackupDRDataSourceConfigInfoGCPBackupConfigBackupPlan
          (index original "backupPlan")),
      ("backup_plan_description",
        flattenBackupDRDataSourceConfigInfoGCPBackupConfigBackupPlanDescription
          (index original "backupPlanDescription")),
      ("backup_plan_association",
        flattenBackupDRDataSourceConfigInfoGCPBackupConfigBackupPlanAssociation
          (index original "backupPlanAssociation")),
      ("backup_plan_rules",
        flattenBackupDRDataSourceConfigInfoGCPBackupConfigBackupPlanRules
          (index original "backupPlanRules"))]])

/-- The record flattener of `backup_config_info`.  The two nested flatteners
are called in the order of the assignments, so a panic of the first one
hides the second. -/
def flattenDataSourceBackupDRDataSourceBackupConfigInfo (v : Value) : Except String Value :=
  if v.isNil then .ok v else
  match assertMap v with
  | .error p => .error p
  | .ok original =>
    if len original == 0 then .ok .null else
    match flattenBackupDRDataSourceConfigInfoGCPBackupConfig
        (index original "gcpBackupConfig") with
    | .error p => .error p
    | .ok gcpBackupConfig =>
    match flattenBackupDRDataSourceConfigInfoBackupApplianceBackupConfig
        (index original "backupApplianceBackupConfig") with
    | .error p => .error p
    | .ok backupApplianceBackupConfig =>
    .ok (.list [.map [
      ("last_backup_state",
        flattenDataSourceBackupDRDataSourceConfigInfoLastBackupState
          (index original "lastBackupState")),
      ("last_successful_backup_consistency_time",
        flattenDataSourceBackupDRDataSourceConfigInfoLastSuccessfulBackupConsistencyTime
          (index original "lastSuccessfulBackupConsistencyTime")),
      ("last_backup_error",
        flattenDataSourceBackupDRDataSourceConfigInfoLastBackupError
          (index original "lastBackupError")),
      ("gcp_backup_config", gcpBackupConfig),
      ("backup_appliance_backup_config", backupApplianceBackupConfig)]])

/-! ## `data_source_gcp_resource` -/

def flattenBackupDRDataSourceDataSourceGCPResourceGCPResourceName (v : Value) : Value := v

def flattenBackupDRDataSourceDataSourceGCPResourceLocation (v : Value) : Value := v

def flattenBackupDRDataSourceDataSourceGCPResourceComputeInstanceDataSourcePropertiesName
    (v : Value) : Value := v

def flattenBackupDRDataSourceDataSourceGCPResourceComputeInstanceDataSourcePropertiesDescription
    (v : Value) : Value := v

def flattenBackupDRDataSourceDataSourceGCPResourceComputeInstanceDataSourcePropertiesMachineType
    (v : Value) : Value := v

def flattenBackupDRDataSourceDataSourceGCPResourceComputeInstanceDataSourcePropertiesTotalDiskCount
    (v : Value) : Value := v

def flattenBackupDRDataSourceDataSourceGCPResourceComputeInstanceDataSourcePropertiesTotalDiskSizeGb
    (v : Value) : Value := v

/-- The record flattener of `compute_instance_data_source_properties`; on a
`nil` argument it returns the literal `nil`. -/
def flattenBackupDRDataSourceDataSourceGCPResourceComputeInstanceDataSourceProperties
    (v : Value) : Except String Value :=
  if v.isNil then .ok .null else
  match assertMap v with
  | .error p => .error p
  | .ok original =>
    if len original == 0 then .ok .null else
    .ok (.list [.map [
      ("name",
        flattenBackupDRDataSourceDataSourceGCPResourceComputeInstanceDataSourcePropertiesName
          (index original "name")),
      ("description",
        flattenBackupDRDataSourceDataSourceGCPResourceComputeInstanceDataSourcePropertiesDescription
          (index original "description")),
      ("machine_type",
        flattenBackupDRDataSourceDataSourceGCPResourceComputeInstanceDataSourcePropertiesMachineType
          (index original "machineType")),
      ("total_disk_count",
        flattenBackupDRDataSourceDataSourceGCPResourceComputeInstanceDataSourcePropertiesTotalDiskCount
          (index original "totalDiskCount")),
      ("total_disk_size_gb",
        flattenBackupDRDataSourceDataSourceGCPResourceComputeInstanceDataSourcePropertiesTotalDiskSizeGb
          (index original "totalDiskSizeGb"))]])

/-- The record flattener of `data_source_gcp_resource`. -/
def flattenBackupDRDataSourceDataSourceGCPResource (v : Value) : Except String Value :=
  if v.isNil then .ok v else
  match assertMap v with
  | .error p => .error p
  | .ok original =>
    if len original == 0 then .ok .null else
    match flattenBackupDRDataSourceDataSourceGCPResourceComputeInstanceDataSourceProperties
        (index original "computeInstanceDatasourceProperties") with
    | .error p => .error p
    | .ok computeInstanceDataSourceProperties =>
    .ok (.list [.map [
      ("gcp_resourcename",
        flattenBackupDRDataSourceDataSourceGCPResourceGCPResourceName
          (index original "gcpResourcename")),
      ("location",
        flattenBackupDRDataSourceDataSourceGCPResourceLocation (index original "location")),
      ("compute_instance_data_source_properties", computeInstanceDataSourceProperties)]])

/-! ## `data_source_backup_appliance_application` -/

def flattenBackupDRDataSourceDataSourceBackupApplianceApplicationApplicationName
    (v : Value) : Value := v

def flattenBackupDRDataSourceDataSourceBackupApplianceApplicationBackupAppliance
    (v : Value) : Value := v

def flattenBackupDRDataSourceDataSourceBackupApplianceApplicationApplianceId
    (v : Value) : Value := v

def flattenBackupDRDataSourceDataSourceBackupApplianceApplicationType (v : Value) : Value := v

def flattenBackupDRDataSourceDataSourceBackupApplianceApplicationApplicationId
    (v : Value) : Value := v

def flattenBackupDRDataSourceDataSourceBackupApplianceApplicationApplicationHostname
    (v : Value) : Value := v

def flattenBackupDRDataSourceDataSourceBackupApplianceApplicationApplicationHostId
    (v : Value) : Value := v

/-- The record flattener of `data_source_backup_appliance_application`. -/
def flattenBackupDRDataSourceDataSourceBackupApplianceApplication
    (v : Value) : Except String Value :=
  if v.isNil then .ok v else
  match assertMap v with
  | .error p => .error p
  | .ok original =>
    if len original == 0 then .ok .null else
    .ok (.list [.map [
      ("application_name",
        flattenBackupDRDataSourceDataSourceBackupApplianceApplicationApplicationName
          (index original "applicationName")),
      ("backup_appliance",
        flattenBackupDRDataSourceDataSourceBackupApplianceApplicationBackupAppliance
          (index original "backupAppliance")),
      ("appliance_id",
        flattenBackupDRDataSourceDataSourceBackupApplianceApplicationApplianceId
          (index original "applianceId")),
      ("type",
        flattenBackupDRDataSourceDataSourceBackupApplianceApplicationType
          (index original "type")),
      ("application_id",
        flattenBackupDRDataSourceDataSourceBackupApplianceApplicationApplicationId
          (index original "applicationId")),
      ("hostname",
        flattenBackupDRDataSourceDataSourceBackupApplianceApplicationApplicationHostname
          (index original "hostname")),
      ("host_id",
        flattenBackupDRDataSourceDataSourceBackupApplianceApplicationApplicationHostId
          (index original "hostId"))]])

/-! ## The declared schema -/

/-- A `*schema.Schema` of the data source, reduced to what shapes a value:
its `Type` and its `Elem`.  `Computed`, `Required` and `Description` are
left out.  `listOfResource` is a `TypeList` whose `Elem` is a
`*schema.Resource` with the given fields, the other constructors with an
argument have a `*schema.Schema` as `Elem`. -/
inductive Schema where
  | TypeString
  | TypeMap (elem : Schema)
  | TypeList (elem : Schema)
  | listOfResource (fields : List (String × Schema))

/-- The names of the fields a schema node declares for its records. -/
def Schema.fieldNames : Schema → List String
  | .listOfResource fields => fields.map Prod.fst
  | _ => []

/-- The schema node declared under `name` inside a record node. -/
def Schema.field (s : Schema) (name : String) : Option Schema :=
  match s with
  | .listOfResource fields => fields.lookup name
  | _ => none

/-- The map `dsSchema` of `DataSourceGoogleCloudBackupDRDataSource`. -/
def dsSchema : List (String × Schema) := [
  ("name", .TypeString),
  ("state", .TypeString),
  ("labels", .TypeMap .TypeString),
  ("create_time", .TypeString),
  ("update_time", .TypeString),
  ("backup_count", .TypeString),
  ("etag", .TypeString),
  ("total_stored_bytes", .TypeString),
  ("config_state", .TypeString),
  ("backup_config_info", .listOfResource [
    ("last_backup_state", .TypeString),
    ("last_successful_backup_consistency_time", .TypeString),
    ("last_backup_error", .TypeMap .TypeString),
    ("gcp_backup_config", .listOfResource [
      ("backup_plan", .TypeString),
      ("backup_plan_description", .TypeString),
      ("backup_plan_association", .TypeString),
      ("backup_plan_rules", .TypeList .TypeString)]),
    ("backup_appliance_backup_config", .listOfResource [
      ("backup_appliance_name", .TypeString),
      ("backup_appliance_id", .TypeString),
      ("sla_id", .TypeString),
      ("application_name", .TypeString),
      ("host_name", .TypeString),
      ("slt_name", .TypeString),
      ("slp_name", .TypeString)])]),
  ("data_source_gcp_resource", .listOfResource [
    ("gcp_resourcename", .TypeString),
    ("location", .TypeString),
    ("type", .TypeString),
    ("compute_instance_data_source_properties", .listOfResource [
      ("name", .TypeString),
      ("description", .TypeString),
      ("machine_type", .TypeString),
      ("total_disk_count", .TypeString),
      ("total_disk_size_gb", .TypeString)])]),
  ("data_source_backup_appliance_application", .listOfResource [
    ("application_name", .TypeString),
    ("backup_appliance", .TypeString),
    ("appliance_id", .TypeString),
    ("type", .TypeString),
    ("application_id", .TypeString),
    ("hostname", .TypeString),
    ("host_id", .TypeString)]),
  ("location", .TypeString),
  ("project", .TypeString),
  ("data_source_id", .TypeString),
  ("backup_vault_id", .TypeString)]

/-- The field names declared for the records found by following `path` from
the top of `dsSchema`; the empty list when the path leads nowhere. -/
def declaredFields (path : List String) : List String :=
  match path with
  | [] => dsSchema.map Prod.fst
  | top :: rest =>
    match rest.foldl (fun s name => s.bind fun node => node.field name)
        (dsSchema.lookup top) with
    | some node => node.fieldNames
    | none => []

/-- The keys of a map value, in the order of its entries. -/
def keys (m : List (String × Value)) : List String := m.map Prod.fst

/-! ## The attribute store and `Read` -/

/-- The fields of `transport_tpg.SendRequestOptions` that `Read` fills in,
`Config` apart. -/
structure SendRequestOptions where
  Method : String
  Project : String
  RawURL : String
  UserAgent : String
  deriving DecidableEq

/-- What the helpers of the SDK and of the provider answer during one run of
`Read`.  They live outside this file; each field is the result of the helper
of the same name for the `d` and `config` of the run.  An `error` is carried
by its message.  `SetError key value` is the error `d.Set(key, value)`
returns, `none` when the store takes the value. -/
structure Collaborators where
  GenerateUserAgentString : Except String String
  GetProject : Except String String
  GetLocation : Except String String
  ReplaceVars : String → Except String String
  GetBillingProject : Except String String
  SendRequest : SendRequestOptions → Except String (List (String × Value))
  SetError : String → Value → Option String

/-- A call made to a helper, as recorded in the order of execution. -/
inductive Call where
  | GenerateUserAgentString
  | GetProject
  | GetLocation
  | ReplaceVars (template : String)
  | GetBillingProject
  | SendRequest (opts : SendRequestOptions)
  deriving DecidableEq

/-- The part of `*schema.ResourceData` that `Read` writes: the assignments
made through `Set`, the most recent first, and the identifier. -/
structure ResourceData where
  attrs : List (String × Value)
  id : String

/-- The value last assigned to an attribute, if any. -/
def ResourceData.Get (d : ResourceData) (key : String) : Option Value :=
  d.attrs.lookup key

/-- The call `d.Set(key, value)`: the store either refuses the value and
stays as it is, or records the assignment. -/
def ResourceData.Set (E : Collaborators) (d : ResourceData) (key : String) (value : Value) :
    ResourceData × Option String :=
  match E.SetError key value with
  | some err => (d, some err)
  | none => ({ d with attrs := (key, value) :: d.attrs }, none)

/-- The call `d.SetId(v)`. -/
def ResourceData.SetId (d : ResourceData) (v : String) : ResourceData :=
  { d with id := v }

/-- How a run of `Read` ends: `return nil`, `return err`, or a panic. -/
inductive Outcome where
  | success
  | failure (message : String)
  | panic (message : String)
  deriving DecidableEq

/-- A finished run: the store as the run leaves it, the helper calls it made
and how it ended. -/
structure Run where
  d : ResourceData
  calls : List Call
  outcome : Outcome

/-- One statement
`if err := d.Set(key, value); err != nil { return fmt.Errorf("Error reading DataSource: %s", err) }`
followed by the rest of the function.  The argument `value` is evaluated
before `Set` is entered, so a panic inside the flattener leaves the store
untouched by this statement. -/
def setOrReturn (E : Collaborators) (calls : List Call) (d : ResourceData) (key : String)
    (value : Except String Value) (rest : ResourceData → Run) : Run :=
  match value with
  | .error p => ⟨d, calls, .panic p⟩
  | .ok v =>
    match d.Set E key v with
    | (d, some err) => ⟨d, calls, .failure ("Error reading DataSource: " ++ err)⟩
    | (d, none) => rest d

/-- The statements of `Read` from the first `d.Set` on, for the decoded
response `res`. -/
def readResponse (E : Collaborators) (calls : List Call) (d : ResourceData)
    (res : List (String × Value)) : Run :=
  setOrReturn E calls d "name"
    (.ok (flattenDataSourceBackupDRDataSourceName (index res "name"))) fun d =>
  setOrReturn E calls d "create_time"
    (.ok (flattenDataSourceBackupDRDataSourceCreateTime (index res "createTime"))) fun d =>
  setOrReturn E calls d "update_time"
    (.ok (flattenDataSourceBackupDRDataSourceUpdateTime (index res "updateTime"))) fun d =>
  setOrReturn E calls d "backup_count"
    (.ok (flattenDataSourceBackupDRDataSourceBackupCount (index res "backupCount"))) fun d =>
  setOrReturn E calls d "etag"
    (.ok (flattenDataSourceBackupDRDataSourceEtag (index res "etag"))) fun d =>
  setOrReturn E calls d "state"
    (.ok (flattenDataSourceBackupDRDataSourceState (index res "state"))) fun d =>
  setOrReturn E calls d "total_stored_bytes"
    (.ok (flattenDataSourceBackupDRDataSourceTotalStoredBytes
      (index res "totalStoredBytes"))) fun d =>
  setOrReturn E calls d "backup_config_info"
    (flattenDataSourceBackupDRDataSourceBackupConfigInfo (index res "backupConfigInfo")) fun d =>
  setOrReturn E calls d "data_source_gcp_resource"
    (flattenBackupDRDataSourceDataSourceGCPResource (index res "dataSourceGcpResource")) fun d =>
  setOrReturn E calls d "data_source_backup_appliance_application"
    (flattenBackupDRDataSourceDataSourceBackupApplianceApplication
      (index res "dataSourceBackupApplianceApplication")) fun d =>
  match assertString (index res "name") with
  | .error p => ⟨d, calls, .panic p⟩
  | .ok name => ⟨d.SetId name, calls, .success⟩

/-- The URL template handed to `tpgresource.ReplaceVars`. -/
def urlTemplate : String :=
  "\x7b\x7bBackupDRBasePath\x7d\x7dprojects/\x7b\x7bproject\x7d\x7d/locations/\x7b\x7blocation\x7d\x7d/backupVaults/\x7b\x7bbackup_vault_id\x7d\x7d/dataSources/\x7b\x7bdata_source_id\x7d\x7d"

/-- The function `DataSourceGoogleCloudBackupDRDataSourceRead`.  The built-in
`len` of a string counts its bytes.  The first statement,
`config := meta.(*transport_tpg.Config)`, holds for the `meta` the provider
passes and is not modelled. -/
def DataSourceGoogleCloudBackupDRDataSourceRead (E : Collaborators) (d : ResourceData) : Run :=
  match E.GenerateUserAgentString with
  | .error err => ⟨d, [.GenerateUserAgentString], .failure err⟩
  | .ok userAgent =>
  match E.GetProject with
  | .error err => ⟨d, [.GenerateUserAgentString, .GetProject], .failure err⟩
  | .ok project =>
  match E.GetLocation with
  | .error err => ⟨d, [.GenerateUserAgentString, .GetProject, .GetLocation], .failure err⟩
  | .ok location =>
  if location.utf8ByteSize == 0 then
    ⟨d, [.GenerateUserAgentString, .GetProject, .GetLocation],
      .failure
        "Cannot determine location: set location in this data source or at provider-level"⟩
  else
  match E.ReplaceVars urlTemplate with
  | .error err =>
    ⟨d, [.GenerateUserAgentString, .GetProject, .GetLocation, .ReplaceVars urlTemplate],
      .failure err⟩
  | .ok url =>
  let billingProject :=
    match E.GetBillingProject with
    | .ok bp => bp
    | .error _ => project
  let opts : SendRequestOptions :=
    { Method := "GET", Project := billingProject, RawURL := url, UserAgent := userAgent }
  let calls : List Call :=
    [.GenerateUserAgentString, .GetProject, .GetLocation, .ReplaceVars urlTemplate,
      .GetBillingProject, .SendRequest opts]
  match E.SendRequest opts with
  | .error err => ⟨d, calls, .failure ("Error reading BackupVault: " ++ err)⟩
  | .ok res => readResponse E calls d res

/-- The GET requests a run has issued. -/
def Run.requests (run : Run) : List SendRequestOptions :=
  run.calls.filterMap fun call =>
    match call with
    | .SendRequest opts => some opts
    | _ => none

/-- A value a record flattener can take apart: `nil` or a map. -/
def Value.isNilOrMap : Value → Bool
  | .null => true
  | .map _ => true
  | _ => false

/-- The value is `nil`, or a map whose values under the keys `nested` (its
record-valued children) are themselves `nil` or maps. -/
def Value.isRecord (v : Value) (nested : List String) : Bool :=
  match v with
  | .null => true
  | .map entries => nested.all fun key => (index entries key).isNilOrMap
  | _ => false

/-- The value is `nil` or a list holding exactly one map. -/
def Value.isNilOrSingleRecord : Value → Bool
  | .null => true
  | .list [.map _] => true
  | _ => false

/-! ## Sample inputs -/

/-- The `backupConfigInfo` object of the second end-to-end scenario. -/
def sampleBackupConfigInfo : List (String × Value) :=
  [("lastBackupState", .str "SUCCESSFUL"),
   ("gcpBackupConfig", .map [("backupPlan", .str "plan-a")])]

/-- The decoded response of the first end-to-end scenario. -/
def sampleResponse : List (String × Value) :=
  [("name", .str "projects/p/locations/us-central1/backupVaults/bv-test/dataSources/ds-test"),
   ("state", .str "ACTIVE"),
   ("backupCount", .str "3")]

/-- Helpers that all succeed and answer the GET with `res`, except that no
billing project is configured; the store takes every value. -/
def answering (res : List (String × Value)) : Collaborators where
  GenerateUserAgentString := .ok "Terraform/1.0"
  GetProject := .ok "p"
  GetLocation := .ok "us-central1"
  ReplaceVars := fun _ =>
    .ok "https://backupdr.googleapis.com/v1/projects/p/locations/us-central1/backupVaults/bv-test/dataSources/ds-test"
  GetBillingProject := .error "no billing project"
  SendRequest := fun _ => .ok res
  SetError := fun _ _ => none

/-- A store nothing has been written to. -/
def freshData : ResourceData := ⟨[], ""⟩

/-- The response of the first scenario with a string where the object
`backupConfigInfo` is expected. -/
def malformedResponse : List (String × Value) :=
  sampleResponse ++ [("backupConfigInfo", .str "oops")]

/-- A response that carries labels. -/
def labelledResponse : List (String × Value) :=
  sampleResponse ++ [("labels", .map [("k", .str "v")])]

/-- The helpers of `answering` with a failing user-agent resolution. -/
def failingUserAgent : Collaborators :=
  { answering sampleResponse with GenerateUserAgentString := .error "boom" }

/-- The helpers of `answering` with a failing GET. -/
def failingRequest : Collaborators :=
  { answering sampleResponse with SendRequest := fun _ => .error "boom" }

/-- The six record flatteners, in the order of the file. -/
def recordFlatteners : List (Value → Except String Value) :=
  [flattenDataSourceBackupDRDataSourceBackupConfigInfo,
   flattenBackupDRDataSourceConfigInfoBackupApplianceBackupConfig,
   flattenBackupDRDataSourceConfigInfoGCPBackupConfig,
   flattenBackupDRDataSourceDataSourceGCPResource,
   flattenBackupDRDataSourceDataSourceGCPResourceComputeInstanceDataSourceProperties,
   flattenBackupDRDataSourceDataSourceBackupApplianceApplication]

/-- The helpers of `answering` with a store that refuses the value of
`backup_config_info` and takes every other one. -/
def rejectingStore : Collaborators :=
  { answering sampleResponse with
    SetError := fun key _ => if key == "backup_config_info" then some "rejected" else none }

/-- A response without `name`. -/
def namelessResponse : List (String × Value) :=
  [("state", .str "ACTIVE"), ("backupCount", .str "3")]

/-- A `gcpBackupConfig` object with a backup plan. -/
def sampleGCPBackupConfig : List (String × Value) :=
  [("backupPlan", .str "plan-a")]

/-- A `computeInstanceDatasourceProperties` object. -/
def sampleComputeInstance : List (String × Value) :=
  [("name", .str "vm-1"), ("machineType", .str "e2-small")]

/-- The helpers of `answering` with a store that refuses a number or a
boolean under every key and takes every other value. -/
def strictStore (res : List (String × Value)) : Collaborators :=
  { answering res with
    SetError := fun key value =>
      match value with
      | .number _ => some (key ++ ": expected type string, got float64")
      | .bool _ => some (key ++ ": expected type string, got bool")
      | _ => none }

/-! ## The hand-written tables of the record flatteners -/

/-- The assignments of the `backup_config_info` flattener, each as the output
field name and the API key it is read from. -/
def backupConfigInfoTable : List (String × String) :=
  [("last_backup_state", "lastBackupState"),
   ("last_successful_backup_consistency_time", "lastSuccessfulBackupConsistencyTime"),
   ("last_backup_error", "lastBackupError"),
   ("gcp_backup_config", "gcpBackupConfig"),
   ("backup_appliance_backup_config", "backupApplianceBackupConfig")]

/-- The assignments of the `backup_appliance_backup_config` flattener. -/
def backupApplianceBackupConfigTable : List (String × String) :=
  [("backup_appliance_name", "backupApplianceName"),
   ("backup_appliance_id", "backupApplianceId"),
   ("sla_id", "slaId"),
   ("application_name", "applicationName"),
   ("slt_name", "sltName"),
   ("slp_name", "slpName")]

/-- The assignments of the `gcp_backup_config` flattener. -/
def gcpBackupConfigTable : List (String × String) :=
  [("backup_plan", "backupPlan"),
   ("backup_plan_description", "backupPlanDescription"),
   ("backup_plan_association", "backupPlanAssociation"),
   ("backup_plan_rules", "backupPlanRules")]

/-- The assignments of the `data_source_gcp_resource` flattener. -/
def gcpResourceTable : List (String × String) :=
  [("gcp_resourcename", "gcpResourcename"),
   ("location", "location"),
   ("compute_instance_data_source_properties", "computeInstanceDatasourceProperties")]

/-- The assignments of the `compute_instance_data_source_properties`
flattener. -/
def computeInstanceDataSourcePropertiesTable : List (String × String) :=
  [("name", "name"),
   ("description", "description"),
   ("machine_type", "machineType"),
   ("total_disk_count", "totalDiskCount"),
   ("total_disk_size_gb", "totalDiskSizeGb")]

/-- The assignments of the `data_source_backup_appliance_application`
flattener. -/
def backupApplianceApplicationTable : List (String × String) :=
  [("application_name", "applicationName"),
   ("backup_appliance", "backupAppliance"),
   ("appliance_id", "applianceId"),
   ("type", "type"),
   ("application_id", "applicationId"),
   ("hostname", "hostname"),
   ("host_id", "hostId")]

/-- A `dataSourceGcpResource` object with a boolean where the object
`computeInstanceDatasourceProperties` is expected. -/
def malformedGCPResource : List (String × Value) :=
  [("gcpResourcename", .str "//compute.googleapis.com/projects/p/zones/z/instances/vm-1"),
   ("computeInstanceDatasourceProperties", .bool true)]

/-! ## Lemmas on the record flatteners without nested records -/

theorem gcpBackupConfig_returns_iff (v : Value) :
    (∃ out, flattenBackupDRDataSourceConfigInfoGCPBackupConfig v = .ok out) ↔
      v.isNilOrMap = true := by
  cases v <;>
    simp [flattenBackupDRDataSourceConfigInfoGCPBackupConfig, Value.isNil, assertMap,
      Value.isNilOrMap]
  split <;> simp

theorem backupApplianceBackupConfig_returns_iff (v : Value) :
    (∃ out, flattenBackupDRDataSourceConfigInfoBackupApplianceBackupConfig v = .ok out) ↔
      v.isNilOrMap = true := by
  cases v <;>
    simp [flattenBackupDRDataSourceConfigInfoBackupApplianceBackupConfig, Value.isNil, assertMap,
      Value.isNilOrMap]
  split <;> simp

theorem computeInstanceDataSourceProperties_returns_iff (v : Value) :
    (∃ out, flattenBackupDRDataSourceDataSourceGCPResourceComputeInstanceDataSourceProperties v
      = .ok out) ↔ v.isNilOrMap = true := by
  cases v <;>
    simp [flattenBackupDRDataSourceDataSourceGCPResourceComputeInstanceDataSourceProperties,
      Value.isNil, assertMap, Value.isNilOrMap]
  split <;> simp

theorem gcpBackupConfig_shape (v out : Value)
    (h : flattenBackupDRDataSourceConfigInfoGCPBackupConfig v = .ok out) :
    out.isNilOrSingleRecord = true := by
  cases v <;>
    simp [flattenBackupDRDataSourceConfigInfoGCPBackupConfig, Value.isNil, assertMap] at h
  · subst h; rfl
  · split at h <;> simp at h <;> subst h <;> rfl

theorem backupApplianceBackupConfig_shape (v out : Value)
    (h : flattenBackupDRDataSourceConfigInfoBackupApplianceBackupConfig v = .ok out) :
    out.isNilOrSingleRecord = true := by
  cases v <;>
    simp [flattenBackupDRDataSourceConfigInfoBackupApplianceBackupConfig, Value.isNil,
      assertMap] at h
  · subst h; rfl
  · split at h <;> simp at h <;> subst h <;> rfl

theorem computeInstanceDataSourceProperties_shape (v out : Value)
    (h : flattenBackupDRDataSourceDataSourceGCPResourceComputeInstanceDataSourceProperties v
      = .ok out) :
    out.isNilOrSingleRecord = true := by
  cases v <;>
    simp [flattenBackupDRDataSourceDataSourceGCPResourceComputeInstanceDataSourceProperties,
      Value.isNil, assertMap] at h
  · subst h; rfl
  · split at h <;> simp at h <;> subst h <;> rfl

theorem len_ne_zero (r : List (String × Value)) (h : r ≠ []) : (len r == 0) = false := by
  cases r with
  | nil => exact absurd rfl h
  | cons a t => rfl

/-! ## Lemmas on the record flatteners with nested records -/

theorem except_ok_or_error {ε α : Type} (x : Except ε α) :
    (∃ a, x = .ok a) ∨ (∃ e, x = .error e) := by
  cases x with
  | ok a => exact Or.inl ⟨a, rfl⟩
  | error e => exact Or.inr ⟨e, rfl⟩

theorem backupConfigInfo_map (m : List (String × Value)) (h : m ≠ []) :
    flattenDataSourceBackupDRDataSourceBackupConfigInfo (.map m) =
      match flattenBackupDRDataSourceConfigInfoGCPBackupConfig (index m "gcpBackupConfig") with
      | .error p => .error p
      | .ok gcp =>
        match flattenBackupDRDataSourceConfigInfoBackupApplianceBackupConfig
            (index m "backupApplianceBackupConfig") with
        | .error p => .error p
        | .ok appliance => .ok (.list [.map [
            ("last_backup_state", index m "lastBackupState"),
            ("last_successful_backup_consistency_time",
              index m "lastSuccessfulBackupConsistencyTime"),
            ("last_backup_error", index m "lastBackupError"),
            ("gcp_backup_config", gcp),
            ("backup_appliance_backup_config", appliance)]]) := by
  simp only [flattenDataSourceBackupDRDataSourceBackupConfigInfo, Value.isNil, assertMap,
    len_ne_zero m h, flattenDataSourceBackupDRDataSourceConfigInfoLastBackupState,
    flattenDataSourceBackupDRDataSourceConfigInfoLastSuccessfulBackupConsistencyTime,
    flattenDataSourceBackupDRDataSourceConfigInfoLastBackupError]
  rfl

theorem gcpResource_map (m : List (String × Value)) (h : m ≠ []) :
    flattenBackupDRDataSourceDataSourceGCPResource (.map m) =
      match flattenBackupDRDataSourceDataSourceGCPResourceComputeInstanceDataSourceProperties
          (index m "computeInstanceDatasourceProperties") with
      | .error p => .error p
      | .ok properties => .ok (.list [.map [
          ("gcp_resourcename", index m "gcpResourcename"),
          ("location", index m "location"),
          ("compute_instance_data_source_properties", properties)]]) := by
  simp only [flattenBackupDRDataSourceDataSourceGCPResource, Value.isNil, assertMap,
    len_ne_zero m h, flattenBackupDRDataSourceDataSourceGCPResourceGCPResourceName,
    flattenBackupDRDataSourceDataSourceGCPResourceLocation]
  rfl

theorem backupConfigInfo_returns_iff (v : Value) :
    (∃ out, flattenDataSourceBackupDRDataSourceBackupConfigInfo v = .ok out) ↔
      v.isRecord ["gcpBackupConfig", "backupApplianceBackupConfig"] = true := by
  cases v with
  | map m =>
    by_cases hm : m = []
    · subst hm
      exact ⟨fun _ => rfl, fun _ => ⟨.null, rfl⟩⟩
    · rw [backupConfigInfo_map m hm]
      simp only [Value.isRecord, List.all_cons, List.all_nil, Bool.and_true, Bool.and_eq_true]
      rw [← gcpBackupConfig_returns_iff (index m "gcpBackupConfig"),
        ← backupApplianceBackupConfig_returns_iff (index m "backupApplianceBackupConfig")]
      rcases except_ok_or_error (flattenBackupDRDataSourceConfigInfoGCPBackupConfig
        (index m "gcpBackupConfig")) with ⟨g, hg⟩ | ⟨e, hg⟩ <;>
      rcases except_ok_or_error (flattenBackupDRDataSourceConfigInfoBackupApplianceBackupConfig
        (index m "backupApplianceBackupConfig")) with ⟨a, ha⟩ | ⟨e2, ha⟩ <;>
      simp [hg, ha]
  | null => exact ⟨fun _ => rfl, fun _ => ⟨.null, rfl⟩⟩
  | str s => simp [flattenDataSourceBackupDRDataSourceBackupConfigInfo, Value.isNil, assertMap,
      Value.isRecord]
  | number n => simp [flattenDataSourceBackupDRDataSourceBackupConfigInfo, Value.isNil,
      assertMap, Value.isRecord]
  | bool b => simp [flattenDataSourceBackupDRDataSourceBackupConfigInfo, Value.isNil, assertMap,
      Value.isRecord]
  | list l => simp [flattenDataSourceBackupDRDataSourceBackupConfigInfo, Value.isNil, assertMap,
      Value.isRecord]

theorem gcpResource_returns_iff (v : Value) :
    (∃ out, flattenBackupDRDataSourceDataSourceGCPResource v = .ok out) ↔
      v.isRecord ["computeInstanceDatasourceProperties"] = true := by
  cases v with
  | map m =>
    by_cases hm : m = []
    · subst hm
      exact ⟨fun _ => rfl, fun _ => ⟨.null, rfl⟩⟩
    · rw [gcpResource_map m hm]
      simp only [Value.isRecord, List.all_cons, List.all_nil, Bool.and_true]
      rw [← computeInstanceDataSourceProperties_returns_iff
        (index m "computeInstanceDatasourceProperties")]
      rcases except_ok_or_error
        (flattenBackupDRDataSourceDataSourceGCPResourceComputeInstanceDataSourceProperties
          (index m "computeInstanceDatasourceProperties")) with ⟨g, hg⟩ | ⟨e, hg⟩ <;>
      simp [hg]
  | null => exact ⟨fun _ => rfl, fun _ => ⟨.null, rfl⟩⟩
  | str s => simp [flattenBackupDRDataSourceDataSourceGCPResource, Value.isNil, assertMap,
      Value.isRecord]
  | number n => simp [flattenBackupDRDataSourceDataSourceGCPResource, Value.isNil, assertMap,
      Value.isRecord]
  | bool b => simp [flattenBackupDRDataSourceDataSourceGCPResource, Value.isNil, assertMap,
      Value.isRecord]
  | list l => simp [flattenBackupDRDataSourceDataSourceGCPResource, Value.isNil, assertMap,
      Value.isRecord]

theorem backupApplianceApplication_returns_iff (v : Value) :
    (∃ out, flattenBackupDRDataSourceDataSourceBackupApplianceApplication v = .ok out) ↔
      v.isRecord [] = true := by
  cases v <;>
    simp [flattenBackupDRDataSourceDataSourceBackupApplianceApplication, Value.isNil, assertMap,
      Value.isRecord]
  split <;> simp

theorem backupConfigInfo_shape (v out : Value)
    (h : flattenDataSourceBackupDRDataSourceBackupConfigInfo v = .ok out) :
    out = .null ∨ ∃ record, out = .list [.map record] ∧
      (index record "gcp_backup_config").isNilOrSingleRecord = true ∧
      (index record "backup_appliance_backup_config").isNilOrSingleRecord = true := by
  cases v with
  | map m =>
    by_cases hm : m = []
    · subst hm
      left
      have e : flattenDataSourceBackupDRDataSourceBackupConfigInfo (.map []) = .ok .null := rfl
      rw [e] at h
      cases h
      rfl
    · rw [backupConfigInfo_map m hm] at h
      rcases except_ok_or_error (flattenBackupDRDataSourceConfigInfoGCPBackupConfig
        (index m "gcpBackupConfig")) with ⟨g, hg⟩ | ⟨e, hg⟩
      · rcases except_ok_or_error
          (flattenBackupDRDataSourceConfigInfoBackupApplianceBackupConfig
            (index m "backupApplianceBackupConfig")) with ⟨a, ha⟩ | ⟨e2, ha⟩
        · simp only [hg, ha, Except.ok.injEq] at h
          subst h
          exact Or.inr ⟨_, rfl, gcpBackupConfig_shape _ _ hg,
            backupApplianceBackupConfig_shape _ _ ha⟩
        · simp [hg, ha] at h
      · simp [hg] at h
  | null =>
    left
    have e : flattenDataSourceBackupDRDataSourceBackupConfigInfo .null = .ok .null := rfl
    rw [e] at h
    cases h
    rfl
  | str s => simp [flattenDataSourceBackupDRDataSourceBackupConfigInfo, Value.isNil,
      assertMap] at h
  | number n => simp [flattenDataSourceBackupDRDataSourceBackupConfigInfo, Value.isNil,
      assertMap] at h
  | bool b => simp [flattenDataSourceBackupDRDataSourceBackupConfigInfo, Value.isNil,
      assertMap] at h
  | list l => simp [flattenDataSourceBackupDRDataSourceBackupConfigInfo, Value.isNil,
      assertMap] at h

theorem gcpResource_shape (v out : Value)
    (h : flattenBackupDRDataSourceDataSourceGCPResource v = .ok out) :
    out = .null ∨ ∃ record, out = .list [.map record] ∧
      (index record "compute_instance_data_source_properties").isNilOrSingleRecord = true := by
  cases v with
  | map m =>
    by_cases hm : m = []
    · subst hm
      left
      have e : flattenBackupDRDataSourceDataSourceGCPResource (.map []) = .ok .null := rfl
      rw [e] at h
      cases h
      rfl
    · rw [gcpResource_map m hm] at h
      rcases except_ok_or_error
        (flattenBackupDRDataSourceDataSourceGCPResourceComputeInstanceDataSourceProperties
          (index m "computeInstanceDatasourceProperties")) with ⟨g, hg⟩ | ⟨e, hg⟩
      · simp only [hg, Except.ok.injEq] at h
        subst h
        exact Or.inr ⟨_, rfl, computeInstanceDataSourceProperties_shape _ _ hg⟩
      · simp [hg] at h
  | null =>
    left
    have e : flattenBackupDRDataSourceDataSourceGCPResource .null = .ok .null := rfl
    rw [e] at h
    cases h
    rfl
  | str s => simp [flattenBackupDRDataSourceDataSourceGCPResource, Value.isNil, assertMap] at h
  | number n => simp [flattenBackupDRDataSourceDataSourceGCPResource, Value.isNil,
      assertMap] at h
  | bool b => simp [flattenBackupDRDataSourceDataSourceGCPResource, Value.isNil, assertMap] at h
  | list l => simp [flattenBackupDRDataSourceDataSourceGCPResource, Value.isNil, assertMap] at h

theorem backupApplianceApplication_shape (v out : Value)
    (h : flattenBackupDRDataSourceDataSourceBackupApplianceApplication v = .ok out) :
    out = .null ∨ ∃ record, out = .list [.map record] := by
  cases v <;>
    simp [flattenBackupDRDataSourceDataSourceBackupApplianceApplication, Value.isNil,
      assertMap] at h
  · exact Or.inl h.symm
  · split at h <;> simp at h
    · exact Or.inl h.symm
    · exact Or.inr ⟨_, h.symm⟩

/-! ## C1: a non-empty map flattens to one record -/

/-- C1, as stated, fails: the map with the single entry
`"gcpBackupConfig": "x"` has one key, yet the `backup_config_info` flattener
does not return a one-element list on it; the nested type assertion panics. -/
theorem C1_nonempty_map_without_single_record :
    len [("gcpBackupConfig", Value.str "x")] ≠ 0 ∧
    (¬ ∃ record, flattenDataSourceBackupDRDataSourceBackupConfigInfo
        (.map [("gcpBackupConfig", .str "x")]) = .ok (.list [record])) ∧
    flattenDataSourceBackupDRDataSourceBackupConfigInfo
        (.map [("gcpBackupConfig", .str "x")]) =
      .error (conversionPanic (.str "x") "map[string]interface \x7b\x7d") := by
  refine ⟨by decide, ?_, rfl⟩
  rintro ⟨record, h⟩
  have h2 : flattenDataSourceBackupDRDataSourceBackupConfigInfo
      (.map [("gcpBackupConfig", .str "x")]) =
      .error (conversionPanic (.str "x") "map[string]interface \x7b\x7d") := rfl
  rw [h2] at h
  cases h

/-- C1, amended: for every raw map `r` with at least one key, each of the four
record flatteners without nested records returns a list with exactly one
record whose fields are the leaf flattens of `r` at the camelCase keys; the
`backup_config_info` and `data_source_gcp_resource` flatteners do so whenever
the record-valued children of `r` are nil or maps, the record-kind fields
being the results of the nested record flatteners. -/
theorem C1_nonempty_map_flattens_to_one_record (r : List (String × Value)) (h : r ≠ []) :
    flattenBackupDRDataSourceConfigInfoGCPBackupConfig (.map r) = .ok (.list [.map [
      ("backup_plan",
        flattenBackupDRDataSourceConfigInfoGCPBackupConfigBackupPlan (index r "backupPlan")),
      ("backup_plan_description",
        flattenBackupDRDataSourceConfigInfoGCPBackupConfigBackupPlanDescription
          (index r "backupPlanDescription")),
      ("backup_plan_association",
        flattenBackupDRDataSourceConfigInfoGCPBackupConfigBackupPlanAssociation
          (index r "backupPlanAssociation")),
      ("backup_plan_rules",
        flattenBackupDRDataSourceConfigInfoGCPBackupConfigBackupPlanRules
          (index r "backupPlanRules"))]]) ∧
    flattenBackupDRDataSourceConfigInfoBackupApplianceBackupConfig (.map r) = .ok (.list [.map [
      ("backup_appliance_name",
        flattenBackupDRDataSourceConfigInfoGCPBackupConfigBackupApplianceBackupConfigBackupApplianceName
          (index r "backupApplianceName")),
      ("backup_appliance_id",
        flattenBackupDRDataSourceConfigInfoGCPBackupConfigBackupApplianceBackupConfigBackupApplianceId
          (index r "backupApplianceId")),
      ("sla_id",
        flattenBackupDRDataSourceConfigInfoGCPBackupConfigBackupApplianceBackupConfigSlaId
          (index r "slaId")),
      ("application_name",
        flattenBackupDRDataSourceConfigInfoGCPBackupConfigBackupApplianceBackupConfigApplicationName
          (index r "applicationName")),
      ("slt_name",
        flattenBackupDRDataSourceConfigInfoGCPBackupConfigBackupApplianceBackupConfigSltName
          (index r "sltName")),
      ("slp_name",
        flattenBackupDRDataSourceConfigInfoGCPBackupConfigBackupApplianceBackupConfigSlpName
          (index r "slpName"))]]) ∧
    flattenBackupDRDataSourceDataSourceGCPResourceComputeInstanceDataSourceProperties (.map r) =
      .ok (.list [.map [
      ("name",
        flattenBackupDRDataSourceDataSourceGCPResourceComputeInstanceDataSourcePropertiesName
          (index r "name")),
      ("description",
        flattenBackupDRDataSourceDataSourceGCPResourceComputeInstanceDataSourcePropertiesDescription
          (index r "description")),
      ("machine_type",
        flattenBackupDRDataSourceDataSourceGCPResourceComputeInstanceDataSourcePropertiesMachineType
          (index r "machineType")),
      ("total_disk_count",
        flattenBackupDRDataSourceDataSourceGCPResourceComputeInstanceDataSourcePropertiesTotalDiskCount
          (index r "totalDiskCount")),
      ("total_disk_size_gb",
        flattenBackupDRDataSourceDataSourceGCPResourceComputeInstanceDataSourcePropertiesTotalDiskSizeGb
          (index r "totalDiskSizeGb"))]]) ∧
    flattenBackupDRDataSourceDataSourceBackupApplianceApplication (.map r) = .ok (.list [.map [
      ("application_name",
        flattenBackupDRDataSourceDataSourceBackupApplianceApplicationApplicationName
          (index r "applicationName")),
      ("backup_appliance",
        flattenBackupDRDataSourceDataSourceBackupApplianceApplicationBackupAppliance
          (index r "backupAppliance")),
      ("appliance_id",
        flattenBackupDRDataSourceDataSourceBackupApplianceApplicationApplianceId
          (index r "applianceId")),
      ("type",
        flattenBackupDRDataSourceDataSourceBackupApplianceApplicationType (index r "type")),
      ("application_id",
        flattenBackupDRDataSourceDataSourceBackupApplianceApplicationApplicationId
          (index r "applicationId")),
      ("hostname",
        flattenBackupDRDataSourceDataSourceBackupApplianceApplicationApplicationHostname
          (index r "hostname")),
      ("host_id",
        flattenBackupDRDataSourceDataSourceBackupApplianceApplicationApplicationHostId
          (index r "hostId"))]]) ∧
    ((Value.map r).isRecord ["gcpBackupConfig", "backupApplianceBackupConfig"] = true →
      ∃ gcp appliance,
        flattenBackupDRDataSourceConfigInfoGCPBackupConfig (index r "gcpBackupConfig")
          = .ok gcp ∧
        flattenBackupDRDataSourceConfigInfoBackupApplianceBackupConfig
          (index r "backupApplianceBackupConfig") = .ok appliance ∧
        flattenDataSourceBackupDRDataSourceBackupConfigInfo (.map r) = .ok (.list [.map [
          ("last_backup_state",
            flattenDataSourceBackupDRDataSourceConfigInfoLastBackupState
              (index r "lastBackupState")),
          ("last_successful_backup_consistency_time",
            flattenDataSourceBackupDRDataSourceConfigInfoLastSuccessfulBackupConsistencyTime
              (index r "lastSuccessfulBackupConsistencyTime")),
          ("last_backup_error",
            flattenDataSourceBackupDRDataSourceConfigInfoLastBackupError
              (index r "lastBackupError")),
          ("gcp_backup_config", gcp),
          ("backup_appliance_backup_config", appliance)]])) ∧
    ((Value.map r).isRecord ["computeInstanceDatasourceProperties"] = true →
      ∃ properties,
        flattenBackupDRDataSourceDataSourceGCPResourceComputeInstanceDataSourceProperties
          (index r "computeInstanceDatasourceProperties") = .ok properties ∧
        flattenBackupDRDataSourceDataSourceGCPResource (.map r) = .ok (.list [.map [
          ("gcp_resourcename",
            flattenBackupDRDataSourceDataSourceGCPResourceGCPResourceName
              (index r "gcpResourcename")),
          ("location",
            flattenBackupDRDataSourceDataSourceGCPResourceLocation (index r "location")),
          ("compute_instance_data_source_properties", properties)]])) := by
  have hl := len_ne_zero r h
  refine ⟨?_, ?_, ?_, ?_, ?_, ?_⟩
  · simp [flattenBackupDRDataSourceConfigInfoGCPBackupConfig, Value.isNil, assertMap, hl]
  · simp [flattenBackupDRDataSourceConfigInfoBackupApplianceBackupConfig, Value.isNil,
      assertMap, hl]
  · simp [flattenBackupDRDataSourceDataSourceGCPResourceComputeInstanceDataSourceProperties,
      Value.isNil, assertMap, hl]
  · simp [flattenBackupDRDataSourceDataSourceBackupApplianceApplication, Value.isNil,
      assertMap, hl]
  · intro hs
    simp only [Value.isRecord, List.all_cons, List.all_nil, Bool.and_true,
      Bool.and_eq_true] at hs
    obtain ⟨gcp, hg⟩ := (gcpBackupConfig_returns_iff _).mpr hs.1
    obtain ⟨appliance, ha⟩ := (backupApplianceBackupConfig_returns_iff _).mpr hs.2
    refine ⟨gcp, appliance, hg, ha, ?_⟩
    simp [flattenDataSourceBackupDRDataSourceBackupConfigInfo, Value.isNil, assertMap, hl,
      hg, ha]
  · intro hs
    simp only [Value.isRecord, List.all_cons, List.all_nil, Bool.and_true] at hs
    obtain ⟨properties, hp⟩ := (computeInstanceDataSourceProperties_returns_iff _).mpr hs
    refine ⟨properties, hp, ?_⟩
    simp [flattenBackupDRDataSourceDataSourceGCPResource, Value.isNil, assertMap, hl, hp]

/-- C1 at the `backupConfigInfo` object of the second scenario. -/
theorem C1_nonempty_map_flattens_to_one_record_witness :
    sampleBackupConfigInfo ≠ [] ∧
    (Value.map sampleBackupConfigInfo).isRecord
      ["gcpBackupConfig", "backupApplianceBackupConfig"] = true ∧
    ∃ gcp appliance,
      flattenBackupDRDataSourceConfigInfoGCPBackupConfig
        (index sampleBackupConfigInfo "gcpBackupConfig") = .ok gcp ∧
      flattenBackupDRDataSourceConfigInfoBackupApplianceBackupConfig
        (index sampleBackupConfigInfo "backupApplianceBackupConfig") = .ok appliance ∧
      flattenDataSourceBackupDRDataSourceBackupConfigInfo (.map sampleBackupConfigInfo) =
        .ok (.list [.map [
          ("last_backup_state",
            flattenDataSourceBackupDRDataSourceConfigInfoLastBackupState
              (index sampleBackupConfigInfo "lastBackupState")),
          ("last_successful_backup_consistency_time",
            flattenDataSourceBackupDRDataSourceConfigInfoLastSuccessfulBackupConsistencyTime
              (index sampleBackupConfigInfo "lastSuccessfulBackupConsistencyTime")),
          ("last_backup_error",
            flattenDataSourceBackupDRDataSourceConfigInfoLastBackupError
              (index sampleBackupConfigInfo "lastBackupError")),
          ("gcp_backup_config", gcp),
          ("backup_appliance_backup_config", appliance)]]) :=
  ⟨by simp [sampleBackupConfigInfo], rfl,
    (C1_nonempty_map_flattens_to_one_record sampleBackupConfigInfo
      (by simp [sampleBackupConfigInfo])).2.2.2.2.1 rfl⟩

/-! ## C2: nil and the empty map -/

/-- C2, as stated, fails: on a nil argument and on a map without keys the
`backup_config_info` flattener returns nil, which is not the empty list. -/
theorem C2_nil_is_not_flattened_to_empty_list :
    flattenDataSourceBackupDRDataSourceBackupConfigInfo .null ≠ .ok (.list []) ∧
    flattenDataSourceBackupDRDataSourceBackupConfigInfo (.map []) ≠ .ok (.list []) ∧
    flattenDataSourceBackupDRDataSourceBackupConfigInfo .null = .ok .null ∧
    flattenDataSourceBackupDRDataSourceBackupConfigInfo (.map []) = .ok .null := by
  refine ⟨?_, ?_, rfl, rfl⟩ <;>
    simp [flattenDataSourceBackupDRDataSourceBackupConfigInfo, Value.isNil, assertMap, len]

/-- C2, amended: each of the six record flatteners returns nil, the null value
and not an allocated empty list, both on a nil argument and on a map with
zero keys; in particular, for a response without the key `backupConfigInfo`
the value computed for `backup_config_info` is nil. -/
theorem C2_nil_and_empty_map_flatten_to_nil (res : List (String × Value))
    (h : res.lookup "backupConfigInfo" = none) :
    (flattenDataSourceBackupDRDataSourceBackupConfigInfo .null = .ok .null ∧
     flattenBackupDRDataSourceConfigInfoGCPBackupConfig .null = .ok .null ∧
     flattenBackupDRDataSourceConfigInfoBackupApplianceBackupConfig .null = .ok .null ∧
     flattenBackupDRDataSourceDataSourceGCPResource .null = .ok .null ∧
     flattenBackupDRDataSourceDataSourceGCPResourceComputeInstanceDataSourceProperties .null
       = .ok .null ∧
     flattenBackupDRDataSourceDataSourceBackupApplianceApplication .null = .ok .null) ∧
    (flattenDataSourceBackupDRDataSourceBackupConfigInfo (.map []) = .ok .null ∧
     flattenBackupDRDataSourceConfigInfoGCPBackupConfig (.map []) = .ok .null ∧
     flattenBackupDRDataSourceConfigInfoBackupApplianceBackupConfig (.map []) = .ok .null ∧
     flattenBackupDRDataSourceDataSourceGCPResource (.map []) = .ok .null ∧
     flattenBackupDRDataSourceDataSourceGCPResourceComputeInstanceDataSourceProperties (.map [])
       = .ok .null ∧
     flattenBackupDRDataSourceDataSourceBackupApplianceApplication (.map []) = .ok .null) ∧
    flattenDataSourceBackupDRDataSourceBackupConfigInfo (index res "backupConfigInfo")
      = .ok .null := by
  refine ⟨⟨rfl, rfl, rfl, rfl, rfl, rfl⟩, ⟨rfl, rfl, rfl, rfl, rfl, rfl⟩, ?_⟩
  simp only [index, h]
  rfl

/-- C2 at the response of the first scenario, which has no `backupConfigInfo`. -/
theorem C2_nil_and_empty_map_flatten_to_nil_witness :
    sampleResponse.lookup "backupConfigInfo" = none ∧
    flattenDataSourceBackupDRDataSourceBackupConfigInfo
      (index sampleResponse "backupConfigInfo") = .ok .null :=
  ⟨rfl, (C2_nil_and_empty_map_flatten_to_nil sampleResponse rfl).2.2⟩

/-! ## C3: declared fields the flatteners leave out -/

/-- C3, evaluated: the schema declares `host_name` for
`backup_appliance_backup_config` and `type` for `data_source_gcp_resource`,
but the records flattened from the map with the single entry
`"hostName": "host-1"` and from the map with the single entry
`"type": "compute.googleapis.com/Instance"` have no such key, so the keys of
the output differ from the declared field names. -/
theorem C3_declared_fields_missing_from_records :
    "host_name" ∈ declaredFields ["backup_config_info", "backup_appliance_backup_config"] ∧
    (∃ record,
      flattenBackupDRDataSourceConfigInfoBackupApplianceBackupConfig
        (.map [("hostName", .str "host-1")]) = .ok (.list [.map record]) ∧
      keys record = ["backup_appliance_name", "backup_appliance_id", "sla_id",
        "application_name", "slt_name", "slp_name"] ∧
      "host_name" ∉ keys record) ∧
    "type" ∈ declaredFields ["data_source_gcp_resource"] ∧
    (∃ record,
      flattenBackupDRDataSourceDataSourceGCPResource
        (.map [("type", .str "compute.googleapis.com/Instance")]) = .ok (.list [.map record]) ∧
      keys record = ["gcp_resourcename", "location",
        "compute_instance_data_source_properties"] ∧
      "type" ∉ keys record) := by
  refine ⟨by decide, ⟨_, rfl, rfl, by decide⟩, by decide, ⟨_, rfl, rfl, by decide⟩⟩

/-! ## C4: the second end-to-end scenario -/

/-- C4: for all strings `s` and `p`, flattening the `backupConfigInfo` map
with `lastBackupState` set to `s` and `gcpBackupConfig` set to the map with
`backupPlan` set to `p` yields a one-element list whose record has
`last_backup_state` equal to `s` and whose `gcp_backup_config` is a
one-element list whose record has `backup_plan` equal to `p`. -/
theorem C4_backup_config_info_scenario (s p : String) :
    ∃ record gcp,
      flattenDataSourceBackupDRDataSourceBackupConfigInfo
        (.map [("lastBackupState", .str s),
               ("gcpBackupConfig", .map [("backupPlan", .str p)])]) = .ok (.list [.map record]) ∧
      index record "last_backup_state" = .str s ∧
      index record "gcp_backup_config" = .list [.map gcp] ∧
      index gcp "backup_plan" = .str p :=
  ⟨_, _, rfl, rfl, rfl, rfl⟩

/-! ## C7: zero or one record at every level -/

/-- C7, as stated, fails: for the nil input the `data_source_gcp_resource`
flattener produces nil, which is not a list at all. -/
theorem C7_nil_result_is_not_a_list :
    (Value.null).isRecord ["computeInstanceDatasourceProperties"] = true ∧
    flattenBackupDRDataSourceDataSourceGCPResource .null = .ok .null ∧
    ¬ ∃ items, flattenBackupDRDataSourceDataSourceGCPResource .null = .ok (.list items) := by
  refine ⟨rfl, rfl, ?_⟩
  simp [flattenBackupDRDataSourceDataSourceGCPResource, Value.isNil]

/-- C7, amended: for every raw input that is nil, an empty map, or a map whose
record-valued children are nil or maps, each top-level record flattener
returns either nil or a list holding exactly one record, and inside that
record every record-kind field (`gcp_backup_config`,
`backup_appliance_backup_config`, `compute_instance_data_source_properties`)
is again nil or a list holding exactly one record; never a bare record and
never more than one element. -/
theorem C7_nil_or_single_record_at_every_level (v : Value) :
    (v.isRecord ["gcpBackupConfig", "backupApplianceBackupConfig"] = true →
      ∃ out, flattenDataSourceBackupDRDataSourceBackupConfigInfo v = .ok out ∧
        (out = .null ∨ ∃ record, out = .list [.map record] ∧
          (index record "gcp_backup_config").isNilOrSingleRecord = true ∧
          (index record "backup_appliance_backup_config").isNilOrSingleRecord = true)) ∧
    (v.isRecord ["computeInstanceDatasourceProperties"] = true →
      ∃ out, flattenBackupDRDataSourceDataSourceGCPResource v = .ok out ∧
        (out = .null ∨ ∃ record, out = .list [.map record] ∧
          (index record "compute_instance_data_source_properties").isNilOrSingleRecord
            = true)) ∧
    (v.isRecord [] = true →
      ∃ out, flattenBackupDRDataSourceDataSourceBackupApplianceApplication v = .ok out ∧
        (out = .null ∨ ∃ record, out = .list [.map record])) := by
  refine ⟨fun h => ?_, fun h => ?_, fun h => ?_⟩
  · obtain ⟨out, ho⟩ := (backupConfigInfo_returns_iff v).mpr h
    exact ⟨out, ho, backupConfigInfo_shape v out ho⟩
  · obtain ⟨out, ho⟩ := (gcpResource_returns_iff v).mpr h
    exact ⟨out, ho, gcpResource_shape v out ho⟩
  · obtain ⟨out, ho⟩ := (backupApplianceApplication_returns_iff v).mpr h
    exact ⟨out, ho, backupApplianceApplication_shape v out ho⟩

/-- C7 at the `backupConfigInfo` object of the second scenario. -/
theorem C7_nil_or_single_record_at_every_level_witness :
    (Value.map sampleBackupConfigInfo).isRecord
      ["gcpBackupConfig", "backupApplianceBackupConfig"] = true ∧
    ∃ out, flattenDataSourceBackupDRDataSourceBackupConfigInfo
        (.map sampleBackupConfigInfo) = .ok out ∧
      (out = .null ∨ ∃ record, out = .list [.map record] ∧
        (index record "gcp_backup_config").isNilOrSingleRecord = true ∧
        (index record "backup_appliance_backup_config").isNilOrSingleRecord = true) :=
  ⟨rfl, (C7_nil_or_single_record_at_every_level (.map sampleBackupConfigInfo)).1 rfl⟩

/-! ## C8: where the flatteners return -/

/-- C8, as stated, fails: on a string the `backup_config_info` flattener
returns no value but panics in its type assertion, and so it does on a map
whose child `gcpBackupConfig` is a number. -/
theorem C8_flatten_panics_on_non_map :
    flattenDataSourceBackupDRDataSourceBackupConfigInfo (.str "x") =
      .error "interface conversion: interface \x7b\x7d is string, not map[string]interface \x7b\x7d" ∧
    (¬ ∃ out, flattenDataSourceBackupDRDataSourceBackupConfigInfo (.str "x") = .ok out) ∧
    flattenDataSourceBackupDRDataSourceBackupConfigInfo
        (.map [("gcpBackupConfig", .number 0)]) =
      .error "interface conversion: interface \x7b\x7d is float64, not map[string]interface \x7b\x7d" ∧
    (¬ ∃ out, flattenDataSourceBackupDRDataSourceBackupConfigInfo
        (.map [("gcpBackupConfig", .number 0)]) = .ok out) := by
  refine ⟨rfl, ?_, rfl, ?_⟩
  · rw [backupConfigInfo_returns_iff]; decide
  · rw [backupConfigInfo_returns_iff]; decide

/-- C8, amended: each record flattener returns a value exactly on the inputs
it is written for: nil, and maps whose record-valued children are nil or
maps.  On every other value (a string, number, boolean or sequence where a
record is expected, at the top level or under a record-valued key) it
returns nothing, the type assertion panics. -/
theorem C8_flatten_returns_iff_record_shaped (v : Value) :
    ((∃ out, flattenDataSourceBackupDRDataSourceBackupConfigInfo v = .ok out) ↔
      v.isRecord ["gcpBackupConfig", "backupApplianceBackupConfig"] = true) ∧
    ((∃ out, flattenBackupDRDataSourceConfigInfoGCPBackupConfig v = .ok out) ↔
      v.isNilOrMap = true) ∧
    ((∃ out, flattenBackupDRDataSourceConfigInfoBackupApplianceBackupConfig v = .ok out) ↔
      v.isNilOrMap = true) ∧
    ((∃ out, flattenBackupDRDataSourceDataSourceGCPResource v = .ok out) ↔
      v.isRecord ["computeInstanceDatasourceProperties"] = true) ∧
    ((∃ out, flattenBackupDRDataSourceDataSourceGCPResourceComputeInstanceDataSourceProperties v
      = .ok out) ↔ v.isNilOrMap = true) ∧
    ((∃ out, flattenBackupDRDataSourceDataSourceBackupApplianceApplication v = .ok out) ↔
      v.isRecord [] = true) :=
  ⟨backupConfigInfo_returns_iff v, gcpBackupConfig_returns_iff v,
    backupApplianceBackupConfig_returns_iff v, gcpResource_returns_iff v,
    computeInstanceDataSourceProperties_returns_iff v,
    backupApplianceApplication_returns_iff v⟩

/-! ## Lemmas on `Read` -/

theorem setOrReturn_calls (E : Collaborators) (calls : List Call) (d : ResourceData)
    (key : String) (value : Except String Value) (rest : ResourceData → Run)
    (h : ∀ d1, (rest d1).calls = calls) :
    (setOrReturn E calls d key value rest).calls = calls := by
  unfold setOrReturn
  split
  · rfl
  · split
    · rfl
    · exact h _

theorem readResponse_calls (E : Collaborators) (calls : List Call) (d : ResourceData)
    (res : List (String × Value)) : (readResponse E calls d res).calls = calls := by
  unfold readResponse
  repeat (first | apply setOrReturn_calls | intro _)
  split <;> rfl

theorem read_eq_readResponse (E : Collaborators) (d : ResourceData) (opts : SendRequestOptions)
    (res : List (String × Value))
    (h : opts ∈ (DataSourceGoogleCloudBackupDRDataSourceRead E d).requests)
    (hres : E.SendRequest opts = .ok res) :
    ∃ calls, DataSourceGoogleCloudBackupDRDataSourceRead E d = readResponse E calls d res := by
  unfold DataSourceGoogleCloudBackupDRDataSourceRead at h ⊢
  cases hua : E.GenerateUserAgentString with
  | error e => simp [hua, Run.requests] at h
  | ok userAgent =>
  cases hp : E.GetProject with
  | error e => simp [hua, hp, Run.requests] at h
  | ok project =>
  cases hl : E.GetLocation with
  | error e => simp [hua, hp, hl, Run.requests] at h
  | ok location =>
  by_cases hz : (location.utf8ByteSize == 0) = true
  · simp [hua, hp, hl, hz, Run.requests] at h
  · cases hu : E.ReplaceVars urlTemplate with
    | error e => simp [hua, hp, hl, hz, hu, Run.requests] at h
    | ok url =>
      simp only [hua, hp, hl, hz, hu, Bool.false_eq_true, if_false] at h ⊢
      split at h
      · simp [Run.requests] at h
        subst h
        simp_all
      · simp [Run.requests, readResponse_calls] at h
        subst h
        rename_i original heq
        rw [hres] at heq
        cases heq
        exact ⟨_, rfl⟩

theorem readResponse_accepted (E : Collaborators) (calls : List Call) (d : ResourceData)
    (res : List (String × Value)) (info gcp app : Value)
    (hset : ∀ key value, E.SetError key value = none)
    (hi : flattenDataSourceBackupDRDataSourceBackupConfigInfo (index res "backupConfigInfo")
      = .ok info)
    (hg : flattenBackupDRDataSourceDataSourceGCPResource (index res "dataSourceGcpResource")
      = .ok gcp)
    (ha : flattenBackupDRDataSourceDataSourceBackupApplianceApplication
      (index res "dataSourceBackupApplianceApplication") = .ok app) :
    readResponse E calls d res =
      match assertString (index res "name") with
      | .error p =>
        ⟨⟨("data_source_backup_appliance_application", app) ::
            ("data_source_gcp_resource", gcp) :: ("backup_config_info", info) ::
            ("total_stored_bytes", index res "totalStoredBytes") ::
            ("state", index res "state") :: ("etag", index res "etag") ::
            ("backup_count", index res "backupCount") ::
            ("update_time", index res "updateTime") ::
            ("create_time", index res "createTime") ::
            ("name", index res "name") :: d.attrs, d.id⟩, calls, .panic p⟩
      | .ok name =>
        ⟨⟨("data_source_backup_appliance_application", app) ::
            ("data_source_gcp_resource", gcp) :: ("backup_config_info", info) ::
            ("total_stored_bytes", index res "totalStoredBytes") ::
            ("state", index res "state") :: ("etag", index res "etag") ::
            ("backup_count", index res "backupCount") ::
            ("update_time", index res "updateTime") ::
            ("create_time", index res "createTime") ::
            ("name", index res "name") :: d.attrs, name⟩, calls, .success⟩ := by
  simp only [readResponse, setOrReturn, ResourceData.Set, hset, hi, hg, ha,
    flattenDataSourceBackupDRDataSourceName, flattenDataSourceBackupDRDataSourceCreateTime,
    flattenDataSourceBackupDRDataSourceUpdateTime,
    flattenDataSourceBackupDRDataSourceBackupCount, flattenDataSourceBackupDRDataSourceEtag,
    flattenDataSourceBackupDRDataSourceState,
    flattenDataSourceBackupDRDataSourceTotalStoredBytes, ResourceData.SetId]

theorem readResponse_accepted_each (E : Collaborators) (calls : List Call) (d : ResourceData)
    (res : List (String × Value)) (info gcp app : Value)
    (h1 : E.SetError "name" (index res "name") = none)
    (h2 : E.SetError "create_time" (index res "createTime") = none)
    (h3 : E.SetError "update_time" (index res "updateTime") = none)
    (h4 : E.SetError "backup_count" (index res "backupCount") = none)
    (h5 : E.SetError "etag" (index res "etag") = none)
    (h6 : E.SetError "state" (index res "state") = none)
    (h7 : E.SetError "total_stored_bytes" (index res "totalStoredBytes") = none)
    (h8 : E.SetError "backup_config_info" info = none)
    (h9 : E.SetError "data_source_gcp_resource" gcp = none)
    (h10 : E.SetError "data_source_backup_appliance_application" app = none)
    (hi : flattenDataSourceBackupDRDataSourceBackupConfigInfo (index res "backupConfigInfo")
      = .ok info)
    (hg : flattenBackupDRDataSourceDataSourceGCPResource (index res "dataSourceGcpResource")
      = .ok gcp)
    (ha : flattenBackupDRDataSourceDataSourceBackupApplianceApplication
      (index res "dataSourceBackupApplianceApplication") = .ok app) :
    readResponse E calls d res =
      match assertString (index res "name") with
      | .error p =>
        ⟨⟨("data_source_backup_appliance_application", app) ::
            ("data_source_gcp_resource", gcp) :: ("backup_config_info", info) ::
            ("total_stored_bytes", index res "totalStoredBytes") ::
            ("state", index res "state") :: ("etag", index res "etag") ::
            ("backup_count", index res "backupCount") ::
            ("update_time", index res "updateTime") ::
            ("create_time", index res "createTime") ::
            ("name", index res "name") :: d.attrs, d.id⟩, calls, .panic p⟩
      | .ok name =>
        ⟨⟨("data_source_backup_appliance_application", app) ::
            ("data_source_gcp_resource", gcp) :: ("backup_config_info", info) ::
            ("total_stored_bytes", index res "totalStoredBytes") ::
            ("state", index res "state") :: ("etag", index res "etag") ::
            ("backup_count", index res "backupCount") ::
            ("update_time", index res "updateTime") ::
            ("create_time", index res "createTime") ::
            ("name", index res "name") :: d.attrs, name⟩, calls, .success⟩ := by
  simp only [readResponse, setOrReturn, ResourceData.Set, h1, h2, h3, h4, h5, h6, h7, h8, h9,
    h10, hi, hg, ha,
    flattenDataSourceBackupDRDataSourceName, flattenDataSourceBackupDRDataSourceCreateTime,
    flattenDataSourceBackupDRDataSourceUpdateTime,
    flattenDataSourceBackupDRDataSourceBackupCount, flattenDataSourceBackupDRDataSourceEtag,
    flattenDataSourceBackupDRDataSourceState,
    flattenDataSourceBackupDRDataSourceTotalStoredBytes, ResourceData.SetId]

/-! ## C5: the attributes of the first scenario -/

/-- C5, as stated, fails: the GET succeeds with a response whose `name`,
`state` and `backupCount` are strings, the store takes every value, and yet
`Read` does not return: the string under `backupConfigInfo` makes the
flattener panic, and the identifier is never set. -/
theorem C5_read_panics_on_malformed_record :
    (∃ opts ∈ (DataSourceGoogleCloudBackupDRDataSourceRead
        (answering malformedResponse) freshData).requests,
      (answering malformedResponse).SendRequest opts = .ok malformedResponse) ∧
    index malformedResponse "name" =
      .str "projects/p/locations/us-central1/backupVaults/bv-test/dataSources/ds-test" ∧
    index malformedResponse "state" = .str "ACTIVE" ∧
    index malformedResponse "backupCount" = .str "3" ∧
    (DataSourceGoogleCloudBackupDRDataSourceRead (answering malformedResponse)
        freshData).outcome =
      .panic "interface conversion: interface \x7b\x7d is string, not map[string]interface \x7b\x7d" ∧
    (DataSourceGoogleCloudBackupDRDataSourceRead (answering malformedResponse)
        freshData).outcome ≠ .success ∧
    (DataSourceGoogleCloudBackupDRDataSourceRead (answering malformedResponse)
        freshData).d.id = "" := by
  refine ⟨⟨_, List.mem_singleton.mpr rfl, rfl⟩, rfl, rfl, rfl, rfl, ?_, rfl⟩
  intro h
  have e : (DataSourceGoogleCloudBackupDRDataSourceRead (answering malformedResponse)
      freshData).outcome =
      .panic "interface conversion: interface \x7b\x7d is string, not map[string]interface \x7b\x7d" :=
    rfl
  rw [e] at h
  cases h

/-- C5, amended: for every successful GET whose decoded response has string
name `n`, state `s` and backupCount `c`, whose three record-valued fields are
nil or maps with nil-or-map record children, and with a store that accepts
the ten assignments `Read` makes (each attribute with the flatten of its
response field), `Read` assigns `name = n`, `state = s`, `backup_count = c`,
sets the identifier to `n` and returns no error.  Nothing is asked of the
store for any other key or value. -/
theorem C5_read_assigns_name_state_backup_count (E : Collaborators) (d : ResourceData)
    (opts : SendRequestOptions) (res : List (String × Value)) (n s c : String)
    (hreq : opts ∈ (DataSourceGoogleCloudBackupDRDataSourceRead E d).requests)
    (hres : E.SendRequest opts = .ok res)
    (hn : index res "name" = .str n)
    (hs : index res "state" = .str s)
    (hc : index res "backupCount" = .str c)
    (hinfo : (index res "backupConfigInfo").isRecord
      ["gcpBackupConfig", "backupApplianceBackupConfig"] = true)
    (hgcp : (index res "dataSourceGcpResource").isRecord
      ["computeInstanceDatasourceProperties"] = true)
    (happ : (index res "dataSourceBackupApplianceApplication").isRecord [] = true)
    (hsetName : E.SetError "name"
      (flattenDataSourceBackupDRDataSourceName (index res "name")) = none)
    (hsetCreateTime : E.SetError "create_time"
      (flattenDataSourceBackupDRDataSourceCreateTime (index res "createTime")) = none)
    (hsetUpdateTime : E.SetError "update_time"
      (flattenDataSourceBackupDRDataSourceUpdateTime (index res "updateTime")) = none)
    (hsetBackupCount : E.SetError "backup_count"
      (flattenDataSourceBackupDRDataSourceBackupCount (index res "backupCount")) = none)
    (hsetEtag : E.SetError "etag"
      (flattenDataSourceBackupDRDataSourceEtag (index res "etag")) = none)
    (hsetState : E.SetError "state"
      (flattenDataSourceBackupDRDataSourceState (index res "state")) = none)
    (hsetTotalStoredBytes : E.SetError "total_stored_bytes"
      (flattenDataSourceBackupDRDataSourceTotalStoredBytes (index res "totalStoredBytes"))
      = none)
    (hsetInfo : ∀ info,
      flattenDataSourceBackupDRDataSourceBackupConfigInfo (index res "backupConfigInfo")
        = .ok info → E.SetError "backup_config_info" info = none)
    (hsetGcp : ∀ gcp,
      flattenBackupDRDataSourceDataSourceGCPResource (index res "dataSourceGcpResource")
        = .ok gcp → E.SetError "data_source_gcp_resource" gcp = none)
    (hsetApp : ∀ app,
      flattenBackupDRDataSourceDataSourceBackupApplianceApplication
        (index res "dataSourceBackupApplianceApplication") = .ok app →
      E.SetError "data_source_backup_appliance_application" app = none) :
    (DataSourceGoogleCloudBackupDRDataSourceRead E d).outcome = .success ∧
    (DataSourceGoogleCloudBackupDRDataSourceRead E d).d.Get "name" = some (.str n) ∧
    (DataSourceGoogleCloudBackupDRDataSourceRead E d).d.Get "state" = some (.str s) ∧
    (DataSourceGoogleCloudBackupDRDataSourceRead E d).d.Get "backup_count" = some (.str c) ∧
    (DataSourceGoogleCloudBackupDRDataSourceRead E d).d.id = n := by
  obtain ⟨calls, hread⟩ := read_eq_readResponse E d opts res hreq hres
  obtain ⟨info, hi⟩ := (backupConfigInfo_returns_iff _).mpr hinfo
  obtain ⟨gcp, hg⟩ := (gcpResource_returns_iff _).mpr hgcp
  obtain ⟨app, ha⟩ := (backupApplianceApplication_returns_iff _).mpr happ
  rw [hread, readResponse_accepted_each E calls d res info gcp app hsetName hsetCreateTime
    hsetUpdateTime hsetBackupCount hsetEtag hsetState hsetTotalStoredBytes (hsetInfo info hi)
    (hsetGcp gcp hg) (hsetApp app ha) hi hg ha, hn, hs, hc]
  exact ⟨rfl, rfl, rfl, rfl, rfl⟩

/-- C5 at the response of the first scenario, with a store that refuses
numbers and booleans. -/
theorem C5_read_assigns_name_state_backup_count_witness :
    (strictStore sampleResponse).SetError "name" (.number 0) ≠ none ∧
    (DataSourceGoogleCloudBackupDRDataSourceRead (strictStore sampleResponse)
      freshData).outcome = .success ∧
    (DataSourceGoogleCloudBackupDRDataSourceRead (strictStore sampleResponse)
      freshData).d.Get "name" = some (.str
        "projects/p/locations/us-central1/backupVaults/bv-test/dataSources/ds-test") ∧
    (DataSourceGoogleCloudBackupDRDataSourceRead (strictStore sampleResponse)
      freshData).d.Get "state" = some (.str "ACTIVE") ∧
    (DataSourceGoogleCloudBackupDRDataSourceRead (strictStore sampleResponse)
      freshData).d.Get "backup_count" = some (.str "3") ∧
    (DataSourceGoogleCloudBackupDRDataSourceRead (strictStore sampleResponse)
      freshData).d.id
      = "projects/p/locations/us-central1/backupVaults/bv-test/dataSources/ds-test" :=
  ⟨by simp [strictStore],
    C5_read_assigns_name_state_backup_count (strictStore sampleResponse) freshData
      ⟨"GET", "p",
        "https://backupdr.googleapis.com/v1/projects/p/locations/us-central1/backupVaults/bv-test/dataSources/ds-test",
        "Terraform/1.0"⟩
      sampleResponse
      "projects/p/locations/us-central1/backupVaults/bv-test/dataSources/ds-test" "ACTIVE" "3"
      (List.mem_singleton.mpr rfl) rfl rfl rfl rfl rfl rfl rfl rfl rfl rfl rfl rfl rfl rfl
      (fun info hi => by
        have e : flattenDataSourceBackupDRDataSourceBackupConfigInfo
            (index sampleResponse "backupConfigInfo") = .ok .null := rfl
        rw [e] at hi
        cases hi
        rfl)
      (fun gcp hg => by
        have e : flattenBackupDRDataSourceDataSourceGCPResource
            (index sampleResponse "dataSourceGcpResource") = .ok .null := rfl
        rw [e] at hg
        cases hg
        rfl)
      (fun app ha => by
        have e : flattenBackupDRDataSourceDataSourceBackupApplianceApplication
            (index sampleResponse "dataSourceBackupApplianceApplication") = .ok .null := rfl
        rw [e] at ha
        cases ha
        rfl)⟩

/-! ## C6: the top-level attributes `Read` assigns -/

/-- C6, evaluated: the response carries `labels` with the entry `k: v` and
the schema declares the attribute `labels`, the read succeeds, and yet
`labels` has not been assigned: `Read` has written the ten other attributes
only. -/
theorem C6_labels_never_assigned :
    index labelledResponse "labels" = .map [("k", .str "v")] ∧
    "labels" ∈ declaredFields [] ∧
    (DataSourceGoogleCloudBackupDRDataSourceRead (answering labelledResponse)
      freshData).outcome = .success ∧
    (DataSourceGoogleCloudBackupDRDataSourceRead (answering labelledResponse)
      freshData).d.Get "labels" = none ∧
    keys (DataSourceGoogleCloudBackupDRDataSourceRead (answering labelledResponse)
      freshData).d.attrs =
      ["data_source_backup_appliance_application", "data_source_gcp_resource",
        "backup_config_info", "total_stored_bytes", "state", "etag", "backup_count",
        "update_time", "create_time", "name"] :=
  ⟨rfl, by decide, rfl, rfl, rfl⟩

/-! ## C9: errors of the resolution steps and of the GET -/

/-- C9, as stated, fails: when the user-agent resolution fails with `boom`,
`Read` returns `boom` itself and not `Error reading DataSource: boom`; when
the GET fails with `boom`, it returns `Error reading BackupVault: boom`. -/
theorem C9_errors_lack_the_DataSource_prefix :
    failingUserAgent.GenerateUserAgentString = .error "boom" ∧
    (DataSourceGoogleCloudBackupDRDataSourceRead failingUserAgent freshData).outcome
      = .failure "boom" ∧
    (DataSourceGoogleCloudBackupDRDataSourceRead failingUserAgent freshData).outcome
      ≠ .failure ("Error reading DataSource: " ++ "boom") ∧
    (DataSourceGoogleCloudBackupDRDataSourceRead failingRequest freshData).outcome
      = .failure "Error reading BackupVault: boom" ∧
    (DataSourceGoogleCloudBackupDRDataSourceRead failingRequest freshData).outcome
      ≠ .failure ("Error reading DataSource: " ++ "boom") := by
  refine ⟨rfl, rfl, by decide, rfl, by decide⟩

/-- C9, amended: whenever a resolution step that `Read` has reached (user
agent, project, location, URL templating) fails with error `e`, `Read`
returns `e` itself, with no prefix added. -/
theorem C9_resolution_errors_returned_verbatim (E : Collaborators) (d : ResourceData)
    (e : String) :
    (E.GenerateUserAgentString = .error e →
      (DataSourceGoogleCloudBackupDRDataSourceRead E d).outcome = .failure e) ∧
    (Call.GetProject ∈ (DataSourceGoogleCloudBackupDRDataSourceRead E d).calls →
      E.GetProject = .error e →
      (DataSourceGoogleCloudBackupDRDataSourceRead E d).outcome = .failure e) ∧
    (Call.GetLocation ∈ (DataSourceGoogleCloudBackupDRDataSourceRead E d).calls →
      E.GetLocation = .error e →
      (DataSourceGoogleCloudBackupDRDataSourceRead E d).outcome = .failure e) ∧
    (Call.ReplaceVars urlTemplate ∈ (DataSourceGoogleCloudBackupDRDataSourceRead E d).calls →
      E.ReplaceVars urlTemplate = .error e →
      (DataSourceGoogleCloudBackupDRDataSourceRead E d).outcome = .failure e) := by
  refine ⟨fun herr => ?_, fun hmem herr => ?_, fun hmem herr => ?_, fun hmem herr => ?_⟩
  · simp [DataSourceGoogleCloudBackupDRDataSourceRead, herr]
  · unfold DataSourceGoogleCloudBackupDRDataSourceRead at hmem ⊢
    cases hua : E.GenerateUserAgentString with
    | error e1 => simp [hua] at hmem
    | ok userAgent => simp [herr]
  · unfold DataSourceGoogleCloudBackupDRDataSourceRead at hmem ⊢
    cases hua : E.GenerateUserAgentString with
    | error e1 => simp [hua] at hmem
    | ok userAgent =>
    cases hp : E.GetProject with
    | error e1 => simp [hua, hp] at hmem
    | ok project => simp [herr]
  · unfold DataSourceGoogleCloudBackupDRDataSourceRead at hmem ⊢
    cases hua : E.GenerateUserAgentString with
    | error e1 => simp [hua] at hmem
    | ok userAgent =>
    cases hp : E.GetProject with
    | error e1 => simp [hua, hp] at hmem
    | ok project =>
    cases hl : E.GetLocation with
    | error e1 => simp [hua, hp, hl] at hmem
    | ok location =>
    by_cases hz : (location.utf8ByteSize == 0) = true
    · simp [hua, hp, hl, hz] at hmem
    · simp [hz, herr]

/-- C9 at helpers whose user-agent resolution fails with `boom`. -/
theorem C9_resolution_errors_returned_verbatim_witness :
    failingUserAgent.GenerateUserAgentString = .error "boom" ∧
    (DataSourceGoogleCloudBackupDRDataSourceRead failingUserAgent freshData).outcome
      = .failure "boom" :=
  ⟨rfl, (C9_resolution_errors_returned_verbatim failingUserAgent freshData "boom").1 rfl⟩

/-! ## C10: no location, no request -/

/-- C12: every leaf flattener, of the scalar fields, of the map
`last_backup_error` and of the list `backup_plan_rules`, returns its argument
unchanged for every input; in particular the `backup_plan_rules` flattener
returns every sequence `s` as it is: same length, same elements, same order,
nothing removed. -/
theorem C12_leaf_flatteners_return_their_argument (v : Value) (s : List Value) :
    (flattenDataSourceBackupDRDataSourceName v = v ∧
     flattenDataSourceBackupDRDataSourceCreateTime v = v ∧
     flattenDataSourceBackupDRDataSourceUpdateTime v = v ∧
     flattenDataSourceBackupDRDataSourceBackupCount v = v ∧
     flattenDataSourceBackupDRDataSourceEtag v = v ∧
     flattenDataSourceBackupDRDataSourceState v = v ∧
     flattenDataSourceBackupDRDataSourceTotalStoredBytes v = v) ∧
    (flattenDataSourceBackupDRDataSourceConfigInfoLastBackupState v = v ∧
     flattenDataSourceBackupDRDataSourceConfigInfoLastSuccessfulBackupConsistencyTime v = v ∧
     flattenDataSourceBackupDRDataSourceConfigInfoLastBackupError v = v) ∧
    (flattenBackupDRDataSourceConfigInfoGCPBackupConfigBackupPlan v = v ∧
     flattenBackupDRDataSourceConfigInfoGCPBackupConfigBackupPlanDescription v = v ∧
     flattenBackupDRDataSourceConfigInfoGCPBackupConfigBackupPlanAssociation v = v ∧
     flattenBackupDRDataSourceConfigInfoGCPBackupConfigBackupPlanRules v = v) ∧
    (flattenBackupDRDataSourceConfigInfoGCPBackupConfigBackupApplianceBackupConfigBackupApplianceName
       v = v ∧
     flattenBackupDRDataSourceConfigInfoGCPBackupConfigBackupApplianceBackupConfigBackupApplianceId
       v = v ∧
     flattenBackupDRDataSourceConfigInfoGCPBackupConfigBackupApplianceBackupConfigSlaId v = v ∧
     flattenBackupDRDataSourceConfigInfoGCPBackupConfigBackupApplianceBackupConfigApplicationName
       v = v ∧
     flattenBackupDRDataSourceConfigInfoGCPBackupConfigBackupApplianceBackupConfigSltName v = v ∧
     flattenBackupDRDataSourceConfigInfoGCPBackupConfigBackupApplianceBackupConfigSlpName v = v) ∧
    (flattenBackupDRDataSourceDataSourceGCPResourceGCPResourceName v = v ∧
     flattenBackupDRDataSourceDataSourceGCPResourceLocation v = v) ∧
    (flattenBackupDRDataSourceDataSourceGCPResourceComputeInstanceDataSourcePropertiesName v = v ∧
     flattenBackupDRDataSourceDataSourceGCPResourceComputeInstanceDataSourcePropertiesDescription
       v = v ∧
     flattenBackupDRDataSourceDataSourceGCPResourceComputeInstanceDataSourcePropertiesMachineType
       v = v ∧
     flattenBackupDRDataSourceDataSourceGCPResourceComputeInstanceDataSourcePropertiesTotalDiskCount
       v = v ∧
     flattenBackupDRDataSourceDataSourceGCPResourceComputeInstanceDataSourcePropertiesTotalDiskSizeGb
       v = v) ∧
    (flattenBackupDRDataSourceDataSourceBackupApplianceApplicationApplicationName v = v ∧
     flattenBackupDRDataSourceDataSourceBackupApplianceApplicationBackupAppliance v = v ∧
     flattenBackupDRDataSourceDataSourceBackupApplianceApplicationApplianceId v = v ∧
     flattenBackupDRDataSourceDataSourceBackupApplianceApplicationType v = v ∧
     flattenBackupDRDataSourceDataSourceBackupApplianceApplicationApplicationId v = v ∧
     flattenBackupDRDataSourceDataSourceBackupApplianceApplicationApplicationHostname v = v ∧
     flattenBackupDRDataSourceDataSourceBackupApplianceApplicationApplicationHostId v = v) ∧
    (∃ out, flattenBackupDRDataSourceConfigInfoGCPBackupConfigBackupPlanRules (.list s)
        = .list out ∧ out.length = s.length ∧ out = s) :=
  ⟨⟨rfl, rfl, rfl, rfl, rfl, rfl, rfl⟩, ⟨rfl, rfl, rfl⟩, ⟨rfl, rfl, rfl, rfl⟩,
    ⟨rfl, rfl, rfl, rfl, rfl, rfl⟩, ⟨rfl, rfl⟩, ⟨rfl, rfl, rfl, rfl, rfl⟩,
    ⟨rfl, rfl, rfl, rfl, rfl, rfl, rfl⟩, ⟨s, rfl, rfl, rfl⟩⟩

/-! ## C14: the record flatteners on nil -/

/-- C14, as stated, fails: no two of the six record flatteners differ on a nil
argument. -/
theorem C14_no_two_flatteners_differ_on_nil :
    ¬ ∃ f ∈ recordFlatteners, ∃ g ∈ recordFlatteners, f .null ≠ g .null := by
  have hall : ∀ f ∈ recordFlatteners, f .null = .ok .null := by
    intro f hf
    simp only [recordFlatteners, List.mem_cons, List.mem_singleton, List.not_mem_nil,
      or_false] at hf
    rcases hf with rfl | rfl | rfl | rfl | rfl | rfl <;> rfl
  rintro ⟨f, hf, g, hg, hne⟩
  exact hne ((hall f hf).trans (hall g hg).symm)

/-- C14, amended: the six record flatteners agree on a nil argument: each
returns nil, the five that end in `return v` as well as the one of
`compute_instance_data_source_properties` that ends in `return nil`; none of
them returns an empty list. -/
theorem C14_flatteners_agree_on_nil :
    (flattenDataSourceBackupDRDataSourceBackupConfigInfo .null = .ok .null ∧
     flattenBackupDRDataSourceConfigInfoBackupApplianceBackupConfig .null = .ok .null ∧
     flattenBackupDRDataSourceConfigInfoGCPBackupConfig .null = .ok .null ∧
     flattenBackupDRDataSourceDataSourceGCPResource .null = .ok .null ∧
     flattenBackupDRDataSourceDataSourceBackupApplianceApplication .null = .ok .null ∧
     flattenBackupDRDataSourceDataSourceGCPResourceComputeInstanceDataSourceProperties .null
       = .ok .null) ∧
    (flattenBackupDRDataSourceDataSourceGCPResourceComputeInstanceDataSourceProperties .null
       = flattenBackupDRDataSourceDataSourceGCPResource .null) ∧
    (flattenBackupDRDataSourceDataSourceGCPResourceComputeInstanceDataSourceProperties .null
       ≠ .ok (.list [])) := by
  refine ⟨⟨rfl, rfl, rfl, rfl, rfl, rfl⟩, rfl, ?_⟩
  simp [flattenBackupDRDataSourceDataSourceGCPResourceComputeInstanceDataSourceProperties,
    Value.isNil]

/-! ## Lemmas: the record of a non-empty map -/

theorem gcpBackupConfig_map (m : List (String × Value)) (h : m ≠ []) :
    flattenBackupDRDataSourceConfigInfoGCPBackupConfig (.map m) = .ok (.list [.map [
      ("backup_plan", index m "backupPlan"),
      ("backup_plan_description", index m "backupPlanDescription"),
      ("backup_plan_association", index m "backupPlanAssociation"),
      ("backup_plan_rules", index m "backupPlanRules")]]) := by
  simp only [flattenBackupDRDataSourceConfigInfoGCPBackupConfig, Value.isNil, assertMap,
    len_ne_zero m h]
  rfl

theorem backupApplianceBackupConfig_map (m : List (String × Value)) (h : m ≠ []) :
    flattenBackupDRDataSourceConfigInfoBackupApplianceBackupConfig (.map m) =
      .ok (.list [.map [
      ("backup_appliance_name", index m "backupApplianceName"),
      ("backup_appliance_id", index m "backupApplianceId"),
      ("sla_id", index m "slaId"),
      ("application_name", index m "applicationName"),
      ("slt_name", index m "sltName"),
      ("slp_name", index m "slpName")]]) := by
  simp only [flattenBackupDRDataSourceConfigInfoBackupApplianceBackupConfig, Value.isNil,
    assertMap, len_ne_zero m h]
  rfl

theorem computeInstanceDataSourceProperties_map (m : List (String × Value)) (h : m ≠ []) :
    flattenBackupDRDataSourceDataSourceGCPResourceComputeInstanceDataSourceProperties (.map m) =
      .ok (.list [.map [
      ("name", index m "name"),
      ("description", index m "description"),
      ("machine_type", index m "machineType"),
      ("total_disk_count", index m "totalDiskCount"),
      ("total_disk_size_gb", index m "totalDiskSizeGb")]]) := by
  simp only [flattenBackupDRDataSourceDataSourceGCPResourceComputeInstanceDataSourceProperties,
    Value.isNil, assertMap, len_ne_zero m h]
  rfl

theorem backupApplianceApplication_map (m : List (String × Value)) (h : m ≠ []) :
    flattenBackupDRDataSourceDataSourceBackupApplianceApplication (.map m) =
      .ok (.list [.map [
      ("application_name", index m "applicationName"),
      ("backup_appliance", index m "backupAppliance"),
      ("appliance_id", index m "applianceId"),
      ("type", index m "type"),
      ("application_id", index m "applicationId"),
      ("hostname", index m "hostname"),
      ("host_id", index m "hostId")]]) := by
  simp only [flattenBackupDRDataSourceDataSourceBackupApplianceApplication, Value.isNil,
    assertMap, len_ne_zero m h]
  rfl

theorem backupConfigInfo_map_record (m : List (String × Value)) (h : m ≠ []) (out : Value)
    (ho : flattenDataSourceBackupDRDataSourceBackupConfigInfo (.map m) = .ok out) :
    ∃ gcp appliance, out = .list [.map [
      ("last_backup_state", index m "lastBackupState"),
      ("last_successful_backup_consistency_time",
        index m "lastSuccessfulBackupConsistencyTime"),
      ("last_backup_error", index m "lastBackupError"),
      ("gcp_backup_config", gcp),
      ("backup_appliance_backup_config", appliance)]] := by
  rw [backupConfigInfo_map m h] at ho
  rcases except_ok_or_error (flattenBackupDRDataSourceConfigInfoGCPBackupConfig
    (index m "gcpBackupConfig")) with ⟨g, hg⟩ | ⟨e, hg⟩
  · rcases except_ok_or_error (flattenBackupDRDataSourceConfigInfoBackupApplianceBackupConfig
      (index m "backupApplianceBackupConfig")) with ⟨a, ha⟩ | ⟨e2, ha⟩
    · simp only [hg, ha, Except.ok.injEq] at ho
      exact ⟨g, a, ho.symm⟩
    · simp [hg, ha] at ho
  · simp [hg] at ho

theorem gcpResource_map_record (m : List (String × Value)) (h : m ≠ []) (out : Value)
    (ho : flattenBackupDRDataSourceDataSourceGCPResource (.map m) = .ok out) :
    ∃ properties, out = .list [.map [
      ("gcp_resourcename", index m "gcpResourcename"),
      ("location", index m "location"),
      ("compute_instance_data_source_properties", properties)]] := by
  rw [gcpResource_map m h] at ho
  rcases except_ok_or_error
    (flattenBackupDRDataSourceDataSourceGCPResourceComputeInstanceDataSourceProperties
      (index m "computeInstanceDatasourceProperties")) with ⟨g, hg⟩ | ⟨e, hg⟩
  · simp only [hg, Except.ok.injEq] at ho
    exact ⟨g, ho.symm⟩
  · simp [hg] at ho

/-! ## C13: flattening a flattened record again -/

/-- C13, as stated, fails: the record flattened from a `gcpBackupConfig` with
the backup plan `plan-a` carries `backup_plan = "plan-a"`; flattening that
record again yields a record whose `backup_plan` is nil, so the second tree
is not the first. -/
theorem C13_second_flatten_loses_backup_plan :
    sampleGCPBackupConfig ≠ [] ∧
    ∃ record,
      flattenBackupDRDataSourceConfigInfoGCPBackupConfig (.map sampleGCPBackupConfig)
        = .ok (.list [.map record]) ∧
      index record "backup_plan" = .str "plan-a" ∧
      flattenBackupDRDataSourceConfigInfoGCPBackupConfig (.map record) = .ok (.list [.map [
        ("backup_plan", .null), ("backup_plan_description", .null),
        ("backup_plan_association", .null), ("backup_plan_rules", .null)]]) ∧
      flattenBackupDRDataSourceConfigInfoGCPBackupConfig (.map record) ≠
        flattenBackupDRDataSourceConfigInfoGCPBackupConfig (.map sampleGCPBackupConfig) := by
  refine ⟨by simp [sampleGCPBackupConfig], _, rfl, rfl, rfl, ?_⟩
  intro h
  have e1 : flattenBackupDRDataSourceConfigInfoGCPBackupConfig (.map sampleGCPBackupConfig)
      = .ok (.list [.map [
        ("backup_plan", .str "plan-a"), ("backup_plan_description", .null),
        ("backup_plan_association", .null), ("backup_plan_rules", .null)]]) := rfl
  have e2 : flattenBackupDRDataSourceConfigInfoGCPBackupConfig (.map [
        ("backup_plan", .str "plan-a"), ("backup_plan_description", .null),
        ("backup_plan_association", .null), ("backup_plan_rules", .null)])
      = .ok (.list [.map [
        ("backup_plan", .null), ("backup_plan_description", .null),
        ("backup_plan_association", .null), ("backup_plan_rules", .null)]]) := rfl
  rw [e1] at h
  erw [e2] at h
  simp at h

/-- C13, amended: for every non-empty raw map `r` on which a record flattener
returns, flattening the single record of the result again returns a
one-element list whose record has the same keys, but only the fields whose
output name is also their API key (`name`, `description`, `location`, `type`,
`hostname`) keep the value they had; every other field, the record-kind
fields included, is nil in the second result.  The flatteners are functions
of their argument and leave `r` as it is. -/
theorem C13_second_flatten_keeps_same_named_fields (r : List (String × Value)) (h : r ≠ []) :
    (∃ record,
      flattenBackupDRDataSourceConfigInfoGCPBackupConfig (.map r) = .ok (.list [.map record]) ∧
      flattenBackupDRDataSourceConfigInfoGCPBackupConfig (.map record) = .ok (.list [.map [
        ("backup_plan", .null), ("backup_plan_description", .null),
        ("backup_plan_association", .null), ("backup_plan_rules", .null)]])) ∧
    (∃ record,
      flattenBackupDRDataSourceConfigInfoBackupApplianceBackupConfig (.map r)
        = .ok (.list [.map record]) ∧
      flattenBackupDRDataSourceConfigInfoBackupApplianceBackupConfig (.map record)
        = .ok (.list [.map [
        ("backup_appliance_name", .null), ("backup_appliance_id", .null), ("sla_id", .null),
        ("application_name", .null), ("slt_name", .null), ("slp_name", .null)]])) ∧
    (∃ record,
      flattenBackupDRDataSourceDataSourceGCPResourceComputeInstanceDataSourceProperties (.map r)
        = .ok (.list [.map record]) ∧
      flattenBackupDRDataSourceDataSourceGCPResourceComputeInstanceDataSourceProperties
        (.map record) = .ok (.list [.map [
        ("name", index r "name"), ("description", index r "description"),
        ("machine_type", .null), ("total_disk_count", .null),
        ("total_disk_size_gb", .null)]])) ∧
    (∃ record,
      flattenBackupDRDataSourceDataSourceBackupApplianceApplication (.map r)
        = .ok (.list [.map record]) ∧
      flattenBackupDRDataSourceDataSourceBackupApplianceApplication (.map record)
        = .ok (.list [.map [
        ("application_name", .null), ("backup_appliance", .null), ("appliance_id", .null),
        ("type", index r "type"), ("application_id", .null),
        ("hostname", index r "hostname"), ("host_id", .null)]])) ∧
    (∀ out, flattenDataSourceBackupDRDataSourceBackupConfigInfo (.map r) = .ok out →
      ∃ record, out = .list [.map record] ∧
        flattenDataSourceBackupDRDataSourceBackupConfigInfo (.map record) = .ok (.list [.map [
          ("last_backup_state", .null), ("last_successful_backup_consistency_time", .null),
          ("last_backup_error", .null), ("gcp_backup_config", .null),
          ("backup_appliance_backup_config", .null)]])) ∧
    (∀ out, flattenBackupDRDataSourceDataSourceGCPResource (.map r) = .ok out →
      ∃ record, out = .list [.map record] ∧
        flattenBackupDRDataSourceDataSourceGCPResource (.map record) = .ok (.list [.map [
          ("gcp_resourcename", .null), ("location", index r "location"),
          ("compute_instance_data_source_properties", .null)]])) := by
  refine ⟨⟨_, gcpBackupConfig_map r h, rfl⟩, ⟨_, backupApplianceBackupConfig_map r h, rfl⟩,
    ⟨_, computeInstanceDataSourceProperties_map r h, rfl⟩,
    ⟨_, backupApplianceApplication_map r h, rfl⟩, fun out ho => ?_, fun out ho => ?_⟩
  · obtain ⟨gcp, appliance, rfl⟩ := backupConfigInfo_map_record r h out ho
    exact ⟨_, rfl, rfl⟩
  · obtain ⟨properties, rfl⟩ := gcpResource_map_record r h out ho
    exact ⟨_, rfl, rfl⟩

/-- C13 at a `computeInstanceDatasourceProperties` object: `name` survives the
second flattening, `machine_type` does not. -/
theorem C13_second_flatten_keeps_same_named_fields_witness :
    sampleComputeInstance ≠ [] ∧
    ∃ record,
      flattenBackupDRDataSourceDataSourceGCPResourceComputeInstanceDataSourceProperties
        (.map sampleComputeInstance) = .ok (.list [.map record]) ∧
      flattenBackupDRDataSourceDataSourceGCPResourceComputeInstanceDataSourceProperties
        (.map record) = .ok (.list [.map [
        ("name", index sampleComputeInstance "name"),
        ("description", index sampleComputeInstance "description"),
        ("machine_type", .null), ("total_disk_count", .null),
        ("total_disk_size_gb", .null)]]) :=
  ⟨by simp [sampleComputeInstance],
    (C13_second_flatten_keeps_same_named_fields sampleComputeInstance
      (by simp [sampleComputeInstance])).2.2.1⟩

/-! ## Lemmas: the keys the flatteners write are declared -/

theorem declared_gcpBackupConfig :
    ∀ key ∈ ["backup_plan", "backup_plan_description", "backup_plan_association",
      "backup_plan_rules"],
      key ∈ declaredFields ["backup_config_info", "gcp_backup_config"] := by
  decide

theorem declared_backupApplianceBackupConfig :
    ∀ key ∈ ["backup_appliance_name", "backup_appliance_id", "sla_id", "application_name",
      "slt_name", "slp_name"],
      key ∈ declaredFields ["backup_config_info", "backup_appliance_backup_config"] := by
  decide

theorem declared_computeInstanceDataSourceProperties :
    ∀ key ∈ ["name", "description", "machine_type", "total_disk_count", "total_disk_size_gb"],
      key ∈ declaredFields
        ["data_source_gcp_resource", "compute_instance_data_source_properties"] := by
  decide

theorem declared_backupApplianceApplication :
    ∀ key ∈ ["application_name", "backup_appliance", "appliance_id", "type", "application_id",
      "hostname", "host_id"],
      key ∈ declaredFields ["data_source_backup_appliance_application"] := by
  decide

theorem declared_backupConfigInfo :
    ∀ key ∈ ["last_backup_state", "last_successful_backup_consistency_time",
      "last_backup_error", "gcp_backup_config", "backup_appliance_backup_config"],
      key ∈ declaredFields ["backup_config_info"] := by
  decide

theorem declared_gcpResource :
    ∀ key ∈ ["gcp_resourcename", "location", "compute_instance_data_source_properties"],
      key ∈ declaredFields ["data_source_gcp_resource"] := by
  decide

/-! ## C15: the keys of the output record -/

theorem index_absent (m : List (String × Value)) (key : String) (h : m.lookup key = none) :
    index m key = .null := by
  simp only [index, h]

/-- C15, as stated, fails: the `dataSourceGcpResource` map with a boolean
under `computeInstanceDatasourceProperties` is not empty, yet the
`data_source_gcp_resource` flattener produces no output record on it: the
nested type assertion panics. -/
theorem C15_nested_flattener_without_output_record :
    malformedGCPResource ≠ [] ∧
    flattenBackupDRDataSourceDataSourceGCPResource (.map malformedGCPResource) =
      .error "interface conversion: interface \x7b\x7d is bool, not map[string]interface \x7b\x7d" ∧
    ¬ ∃ record, flattenBackupDRDataSourceDataSourceGCPResource (.map malformedGCPResource)
      = .ok (.list [.map record]) := by
  refine ⟨by simp [malformedGCPResource], rfl, ?_⟩
  rintro ⟨record, h⟩
  have e : flattenBackupDRDataSourceDataSourceGCPResource (.map malformedGCPResource) =
      .error "interface conversion: interface \x7b\x7d is bool, not map[string]interface \x7b\x7d" :=
    rfl
  rw [e] at h
  cases h

/-- C15, amended: for every non-empty raw map `r`, each of the four record
flatteners without nested records, and each of the two others whenever the
record-valued children of `r` are nil or maps, returns one record whose keys
are a fixed list that does not depend on `r`, every one of them a field name
the schema declares for that record, and in which the field of every API key
missing from `r` is nil.  For all six flatteners the result depends on `r`
only through the API keys of the hand-written table: any other key of `r` is
dropped. -/
theorem C15_output_keys_fixed_and_declared (r : List (String × Value)) (h : r ≠ []) :
    ((∃ record,
        flattenBackupDRDataSourceConfigInfoGCPBackupConfig (.map r) = .ok (.list [.map record]) ∧
        keys record =
          ["backup_plan", "backup_plan_description", "backup_plan_association",
            "backup_plan_rules"] ∧
        (∀ key ∈ keys record, key ∈ declaredFields
          ["backup_config_info", "gcp_backup_config"]) ∧
        (∀ pair ∈ gcpBackupConfigTable, r.lookup pair.2 = none → index record pair.1 = .null) ∧
        (∀ pair ∈ gcpBackupConfigTable, index record pair.1 = index r pair.2)) ∧
      ∀ r2, r2 ≠ [] → (∀ pair ∈ gcpBackupConfigTable, index r2 pair.2 = index r pair.2) →
        flattenBackupDRDataSourceConfigInfoGCPBackupConfig (.map r2) = flattenBackupDRDataSourceConfigInfoGCPBackupConfig (.map r)) ∧
    ((∃ record,
        flattenBackupDRDataSourceConfigInfoBackupApplianceBackupConfig (.map r) = .ok (.list [.map record]) ∧
        keys record =
          ["backup_appliance_name", "backup_appliance_id", "sla_id", "application_name",
            "slt_name", "slp_name"] ∧
        (∀ key ∈ keys record, key ∈ declaredFields
          ["backup_config_info", "backup_appliance_backup_config"]) ∧
        (∀ pair ∈ backupApplianceBackupConfigTable, r.lookup pair.2 = none → index record pair.1 = .null) ∧
        (∀ pair ∈ backupApplianceBackupConfigTable, index record pair.1 = index r pair.2)) ∧
      ∀ r2, r2 ≠ [] → (∀ pair ∈ backupApplianceBackupConfigTable, index r2 pair.2 = index r pair.2) →
        flattenBackupDRDataSourceConfigInfoBackupApplianceBackupConfig (.map r2) = flattenBackupDRDataSourceConfigInfoBackupApplianceBackupConfig (.map r)) ∧
    ((∃ record,
        flattenBackupDRDataSourceDataSourceGCPResourceComputeInstanceDataSourceProperties (.map r) = .ok (.list [.map record]) ∧
        keys record =
          ["name", "description", "machine_type", "total_disk_count", "total_disk_size_gb"] ∧
        (∀ key ∈ keys record, key ∈ declaredFields
          ["data_source_gcp_resource", "compute_instance_data_source_properties"]) ∧
        (∀ pair ∈ computeInstanceDataSourcePropertiesTable, r.lookup pair.2 = none → index record pair.1 = .null) ∧
        (∀ pair ∈ computeInstanceDataSourcePropertiesTable, index record pair.1 = index r pair.2)) ∧
      ∀ r2, r2 ≠ [] → (∀ pair ∈ computeInstanceDataSourcePropertiesTable, index r2 pair.2 = index r pair.2) →
        flattenBackupDRDataSourceDataSourceGCPResourceComputeInstanceDataSourceProperties (.map r2) = flattenBackupDRDataSourceDataSourceGCPResourceComputeInstanceDataSourceProperties (.map r)) ∧
    ((∃ record,
        flattenBackupDRDataSourceDataSourceBackupApplianceApplication (.map r) = .ok (.list [.map record]) ∧
        keys record =
          ["application_name", "backup_appliance", "appliance_id", "type", "application_id",
            "hostname", "host_id"] ∧
        (∀ key ∈ keys record, key ∈ declaredFields
          ["data_source_backup_appliance_application"]) ∧
        (∀ pair ∈ backupApplianceApplicationTable, r.lookup pair.2 = none → index record pair.1 = .null) ∧
        (∀ pair ∈ backupApplianceApplicationTable, index record pair.1 = index r pair.2)) ∧
      ∀ r2, r2 ≠ [] → (∀ pair ∈ backupApplianceApplicationTable, index r2 pair.2 = index r pair.2) →
        flattenBackupDRDataSourceDataSourceBackupApplianceApplication (.map r2) = flattenBackupDRDataSourceDataSourceBackupApplianceApplication (.map r)) ∧
    (((Value.map r).isRecord ["gcpBackupConfig", "backupApplianceBackupConfig"] = true →
        ∃ record,
          flattenDataSourceBackupDRDataSourceBackupConfigInfo (.map r) = .ok (.list [.map record]) ∧
          keys record =
            ["last_backup_state", "last_successful_backup_consistency_time",
              "last_backup_error", "gcp_backup_config", "backup_appliance_backup_config"] ∧
          (∀ key ∈ keys record, key ∈ declaredFields
            ["backup_config_info"]) ∧
          (∀ pair ∈ backupConfigInfoTable, r.lookup pair.2 = none → index record pair.1 = .null)) ∧
      ∀ r2, r2 ≠ [] → (∀ pair ∈ backupConfigInfoTable, index r2 pair.2 = index r pair.2) →
        flattenDataSourceBackupDRDataSourceBackupConfigInfo (.map r2) = flattenDataSourceBackupDRDataSourceBackupConfigInfo (.map r)) ∧
    (((Value.map r).isRecord ["computeInstanceDatasourceProperties"] = true →
        ∃ record,
          flattenBackupDRDataSourceDataSourceGCPResource (.map r) = .ok (.list [.map record]) ∧
          keys record =
            ["gcp_resourcename", "location", "compute_instance_data_source_properties"] ∧
          (∀ key ∈ keys record, key ∈ declaredFields
            ["data_source_gcp_resource"]) ∧
          (∀ pair ∈ gcpResourceTable, r.lookup pair.2 = none → index record pair.1 = .null)) ∧
      ∀ r2, r2 ≠ [] → (∀ pair ∈ gcpResourceTable, index r2 pair.2 = index r pair.2) →
        flattenBackupDRDataSourceDataSourceGCPResource (.map r2) = flattenBackupDRDataSourceDataSourceGCPResource (.map r)) := by
  refine ⟨⟨⟨_, gcpBackupConfig_map r h, rfl, declared_gcpBackupConfig, ?_, ?_⟩, ?_⟩,
    ⟨⟨_, backupApplianceBackupConfig_map r h, rfl, declared_backupApplianceBackupConfig, ?_,
      ?_⟩, ?_⟩,
    ⟨⟨_, computeInstanceDataSourceProperties_map r h, rfl,
      declared_computeInstanceDataSourceProperties, ?_, ?_⟩, ?_⟩,
    ⟨⟨_, backupApplianceApplication_map r h, rfl, declared_backupApplianceApplication, ?_,
      ?_⟩, ?_⟩,
    ⟨?_, ?_⟩, ⟨?_, ?_⟩⟩
  · intro pair hp hk
    simp only [gcpBackupConfigTable, List.mem_cons, List.mem_singleton, List.not_mem_nil,
      or_false] at hp
    rcases hp with rfl | rfl | rfl | rfl <;> exact index_absent r _ hk
  · intro pair hp
    simp only [gcpBackupConfigTable, List.mem_cons, List.mem_singleton, List.not_mem_nil,
      or_false] at hp
    rcases hp with rfl | rfl | rfl | rfl <;> rfl
  · intro r2 h2 hr
    rw [gcpBackupConfig_map r2 h2, gcpBackupConfig_map r h,
      hr ("backup_plan", "backupPlan") (by decide),
      hr ("backup_plan_description", "backupPlanDescription") (by decide),
      hr ("backup_plan_association", "backupPlanAssociation") (by decide),
      hr ("backup_plan_rules", "backupPlanRules") (by decide)]
  · intro pair hp hk
    simp only [backupApplianceBackupConfigTable, List.mem_cons, List.mem_singleton,
      List.not_mem_nil, or_false] at hp
    rcases hp with rfl | rfl | rfl | rfl | rfl | rfl <;> exact index_absent r _ hk
  · intro pair hp
    simp only [backupApplianceBackupConfigTable, List.mem_cons, List.mem_singleton,
      List.not_mem_nil, or_false] at hp
    rcases hp with rfl | rfl | rfl | rfl | rfl | rfl <;> rfl
  · intro r2 h2 hr
    rw [backupApplianceBackupConfig_map r2 h2, backupApplianceBackupConfig_map r h,
      hr ("backup_appliance_name", "backupApplianceName") (by decide),
      hr ("backup_appliance_id", "backupApplianceId") (by decide),
      hr ("sla_id", "slaId") (by decide),
      hr ("application_name", "applicationName") (by decide),
      hr ("slt_name", "sltName") (by decide),
      hr ("slp_name", "slpName") (by decide)]
  · intro pair hp hk
    simp only [computeInstanceDataSourcePropertiesTable, List.mem_cons, List.mem_singleton,
      List.not_mem_nil, or_false] at hp
    rcases hp with rfl | rfl | rfl | rfl | rfl <;> exact index_absent r _ hk
  · intro pair hp
    simp only [computeInstanceDataSourcePropertiesTable, List.mem_cons, List.mem_singleton,
      List.not_mem_nil, or_false] at hp
    rcases hp with rfl | rfl | rfl | rfl | rfl <;> rfl
  · intro r2 h2 hr
    rw [computeInstanceDataSourceProperties_map r2 h2,
      computeInstanceDataSourceProperties_map r h,
      hr ("name", "name") (by decide),
      hr ("description", "description") (by decide),
      hr ("machine_type", "machineType") (by decide),
      hr ("total_disk_count", "totalDiskCount") (by decide),
      hr ("total_disk_size_gb", "totalDiskSizeGb") (by decide)]
  · intro pair hp hk
    simp only [backupApplianceApplicationTable, List.mem_cons, List.mem_singleton,
      List.not_mem_nil, or_false] at hp
    rcases hp with rfl | rfl | rfl | rfl | rfl | rfl | rfl <;> exact index_absent r _ hk
  · intro pair hp
    simp only [backupApplianceApplicationTable, List.mem_cons, List.mem_singleton,
      List.not_mem_nil, or_false] at hp
    rcases hp with rfl | rfl | rfl | rfl | rfl | rfl | rfl <;> rfl
  · intro r2 h2 hr
    rw [backupApplianceApplication_map r2 h2, backupApplianceApplication_map r h,
      hr ("application_name", "applicationName") (by decide),
      hr ("backup_appliance", "backupAppliance") (by decide),
      hr ("appliance_id", "applianceId") (by decide),
      hr ("type", "type") (by decide),
      hr ("application_id", "applicationId") (by decide),
      hr ("hostname", "hostname") (by decide),
      hr ("host_id", "hostId") (by decide)]
  · intro hs
    obtain ⟨out, ho⟩ := (backupConfigInfo_returns_iff _).mpr hs
    have hm := backupConfigInfo_map r h
    rw [ho] at hm
    rcases except_ok_or_error (flattenBackupDRDataSourceConfigInfoGCPBackupConfig
      (index r "gcpBackupConfig")) with ⟨g, hg⟩ | ⟨e, hg⟩
    · rcases except_ok_or_error
        (flattenBackupDRDataSourceConfigInfoBackupApplianceBackupConfig
          (index r "backupApplianceBackupConfig")) with ⟨a, ha⟩ | ⟨e2, ha⟩
      · simp only [hg, ha, Except.ok.injEq] at hm
        subst hm
        refine ⟨_, ho, rfl, declared_backupConfigInfo, ?_⟩
        intro pair hp hk
        simp only [backupConfigInfoTable, List.mem_cons, List.mem_singleton,
          List.not_mem_nil, or_false] at hp
        rcases hp with rfl | rfl | rfl | rfl | rfl
        · exact index_absent r _ hk
        · exact index_absent r _ hk
        · exact index_absent r _ hk
        · rw [index_absent r _ hk] at hg
          have e : flattenBackupDRDataSourceConfigInfoGCPBackupConfig .null = .ok .null := rfl
          rw [e] at hg
          cases hg
          rfl
        · rw [index_absent r _ hk] at ha
          have e : flattenBackupDRDataSourceConfigInfoBackupApplianceBackupConfig .null
            = .ok .null := rfl
          rw [e] at ha
          cases ha
          rfl
      · simp [hg, ha] at hm
    · simp [hg] at hm
  · intro r2 h2 hr
    rw [backupConfigInfo_map r2 h2, backupConfigInfo_map r h,
      hr ("last_backup_state", "lastBackupState") (by decide),
      hr ("last_successful_backup_consistency_time", "lastSuccessfulBackupConsistencyTime")
        (by decide),
      hr ("last_backup_error", "lastBackupError") (by decide),
      hr ("gcp_backup_config", "gcpBackupConfig") (by decide),
      hr ("backup_appliance_backup_config", "backupApplianceBackupConfig") (by decide)]
  · intro hs
    obtain ⟨out, ho⟩ := (gcpResource_returns_iff _).mpr hs
    have hm := gcpResource_map r h
    rw [ho] at hm
    rcases except_ok_or_error
      (flattenBackupDRDataSourceDataSourceGCPResourceComputeInstanceDataSourceProperties
        (index r "computeInstanceDatasourceProperties")) with ⟨g, hg⟩ | ⟨e, hg⟩
    · simp only [hg, Except.ok.injEq] at hm
      subst hm
      refine ⟨_, ho, rfl, declared_gcpResource, ?_⟩
      intro pair hp hk
      simp only [gcpResourceTable, List.mem_cons, List.mem_singleton, List.not_mem_nil,
        or_false] at hp
      rcases hp with rfl | rfl | rfl
      · exact index_absent r _ hk
      · exact index_absent r _ hk
      · rw [index_absent r _ hk] at hg
        have e :
            flattenBackupDRDataSourceDataSourceGCPResourceComputeInstanceDataSourceProperties
              .null = .ok .null := rfl
        rw [e] at hg
        cases hg
        rfl
    · simp [hg] at hm
  · intro r2 h2 hr
    rw [gcpResource_map r2 h2, gcpResource_map r h,
      hr ("gcp_resourcename", "gcpResourcename") (by decide),
      hr ("location", "location") (by decide),
      hr ("compute_instance_data_source_properties", "computeInstanceDatasourceProperties")
        (by decide)]

/-- C15 at the `backupConfigInfo` object of the second scenario, which has no
`lastBackupError`. -/
theorem C15_output_keys_fixed_and_declared_witness :
    sampleBackupConfigInfo ≠ [] ∧
    (Value.map sampleBackupConfigInfo).isRecord
      ["gcpBackupConfig", "backupApplianceBackupConfig"] = true ∧
    ∃ record,
      flattenDataSourceBackupDRDataSourceBackupConfigInfo (.map sampleBackupConfigInfo)
        = .ok (.list [.map record]) ∧
      keys record =
        ["last_backup_state", "last_successful_backup_consistency_time",
          "last_backup_error", "gcp_backup_config", "backup_appliance_backup_config"] ∧
      (∀ key ∈ keys record, key ∈ declaredFields ["backup_config_info"]) ∧
      (∀ pair ∈ backupConfigInfoTable,
        sampleBackupConfigInfo.lookup pair.2 = none → index record pair.1 = .null) :=
  ⟨by simp [sampleBackupConfigInfo], rfl,
    (C15_output_keys_fixed_and_declared sampleBackupConfigInfo
      (by simp [sampleBackupConfigInfo])).2.2.2.2.1.1 rfl⟩

/-! ## Lemmas on successful and on early runs of `Read` -/

theorem setOrReturn_success (E : Collaborators) (calls : List Call) (d : ResourceData)
    (key : String) (value : Except String Value) (rest : ResourceData → Run)
    (h : (setOrReturn E calls d key value rest).outcome = .success) :
    ∃ v, value = .ok v ∧
      setOrReturn E calls d key value rest = rest ⟨(key, v) :: d.attrs, d.id⟩ := by
  unfold setOrReturn at h ⊢
  cases value with
  | error p => simp at h
  | ok v =>
    refine ⟨v, rfl, ?_⟩
    simp only [ResourceData.Set] at h ⊢
    cases hs : E.SetError key v with
    | some err => simp [hs] at h
    | none => simp

theorem readResponse_success (E : Collaborators) (calls : List Call) (d : ResourceData)
    (res : List (String × Value)) (h : (readResponse E calls d res).outcome = .success) :
    ∃ info gcp app name,
      index res "name" = .str name ∧
      flattenDataSourceBackupDRDataSourceBackupConfigInfo (index res "backupConfigInfo")
        = .ok info ∧
      flattenBackupDRDataSourceDataSourceGCPResource (index res "dataSourceGcpResource")
        = .ok gcp ∧
      flattenBackupDRDataSourceDataSourceBackupApplianceApplication
        (index res "dataSourceBackupApplianceApplication") = .ok app ∧
      readResponse E calls d res =
        ⟨⟨("data_source_backup_appliance_application", app) ::
            ("data_source_gcp_resource", gcp) :: ("backup_config_info", info) ::
            ("total_stored_bytes", index res "totalStoredBytes") ::
            ("state", index res "state") :: ("etag", index res "etag") ::
            ("backup_count", index res "backupCount") ::
            ("update_time", index res "updateTime") ::
            ("create_time", index res "createTime") ::
            ("name", index res "name") :: d.attrs, name⟩, calls, .success⟩ := by
  unfold readResponse at h ⊢
  obtain ⟨v1, hv1, e1⟩ := setOrReturn_success _ _ _ _ _ _ h
  rw [e1] at h ⊢
  obtain ⟨v2, hv2, e2⟩ := setOrReturn_success _ _ _ _ _ _ h
  rw [e2] at h ⊢
  obtain ⟨v3, hv3, e3⟩ := setOrReturn_success _ _ _ _ _ _ h
  rw [e3] at h ⊢
  obtain ⟨v4, hv4, e4⟩ := setOrReturn_success _ _ _ _ _ _ h
  rw [e4] at h ⊢
  obtain ⟨v5, hv5, e5⟩ := setOrReturn_success _ _ _ _ _ _ h
  rw [e5] at h ⊢
  obtain ⟨v6, hv6, e6⟩ := setOrReturn_success _ _ _ _ _ _ h
  rw [e6] at h ⊢
  obtain ⟨v7, hv7, e7⟩ := setOrReturn_success _ _ _ _ _ _ h
  rw [e7] at h ⊢
  obtain ⟨v8, hv8, e8⟩ := setOrReturn_success _ _ _ _ _ _ h
  rw [e8] at h ⊢
  obtain ⟨v9, hv9, e9⟩ := setOrReturn_success _ _ _ _ _ _ h
  rw [e9] at h ⊢
  obtain ⟨v10, hv10, e10⟩ := setOrReturn_success _ _ _ _ _ _ h
  rw [e10] at h ⊢
  cases hv1
  cases hv2
  cases hv3
  cases hv4
  cases hv5
  cases hv6
  cases hv7
  refine ⟨v8, v9, v10, ?_⟩
  cases hname : index res "name" <;> simp [assertString, hname] at h
  simp only [hv8, hv9, hv10, assertString, hname, ResourceData.SetId, true_and]
  exact ⟨_, rfl, rfl⟩

theorem read_success (E : Collaborators) (d : ResourceData)
    (h : (DataSourceGoogleCloudBackupDRDataSourceRead E d).outcome = .success) :
    ∃ opts res calls,
      opts ∈ (DataSourceGoogleCloudBackupDRDataSourceRead E d).requests ∧
      E.SendRequest opts = .ok res ∧
      DataSourceGoogleCloudBackupDRDataSourceRead E d = readResponse E calls d res := by
  unfold DataSourceGoogleCloudBackupDRDataSourceRead at h ⊢
  cases hua : E.GenerateUserAgentString with
  | error e => simp [hua] at h
  | ok userAgent =>
  cases hp : E.GetProject with
  | error e => simp [hua, hp] at h
  | ok project =>
  cases hl : E.GetLocation with
  | error e => simp [hua, hp, hl] at h
  | ok location =>
  by_cases hz : (location.utf8ByteSize == 0) = true
  · simp [hua, hp, hl, hz] at h
  · cases hu : E.ReplaceVars urlTemplate with
    | error e => simp [hua, hp, hl, hz, hu] at h
    | ok url =>
      simp only [hua, hp, hl, hz, hu, Bool.false_eq_true, if_false] at h ⊢
      split at h
      · simp at h
      · rename_i original heq
        exact ⟨_, original, _, by simp [Run.requests, readResponse_calls], heq, rfl⟩

theorem read_without_response (E : Collaborators) (d : ResourceData)
    (h : ∀ opts ∈ (DataSourceGoogleCloudBackupDRDataSourceRead E d).requests,
      ∀ res, E.SendRequest opts ≠ .ok res) :
    (DataSourceGoogleCloudBackupDRDataSourceRead E d).d = d ∧
    ∃ message, (DataSourceGoogleCloudBackupDRDataSourceRead E d).outcome = .failure message := by
  unfold DataSourceGoogleCloudBackupDRDataSourceRead at h ⊢
  cases hua : E.GenerateUserAgentString with
  | error e => simp
  | ok userAgent =>
  cases hp : E.GetProject with
  | error e => simp
  | ok project =>
  cases hl : E.GetLocation with
  | error e => simp
  | ok location =>
  by_cases hz : (location.utf8ByteSize == 0) = true
  · simp [hz]
  · cases hu : E.ReplaceVars urlTemplate with
    | error e => simp [hz]
    | ok url =>
      simp only [hua, hp, hl, hz, hu, Bool.false_eq_true, if_false] at h ⊢
      split at h
      · simp
      · rename_i original heq
        exact absurd heq (h _ (by simp [Run.requests, readResponse_calls]) original)

/-! ## C11: runs that end part-way -/

/-- C11, as stated, fails: with a store that refuses `backup_config_info`,
`Read` returns an error after seven attributes have been assigned; and for a
response without `name`, `Read` assigns all ten attributes and then panics in
`res["name"].(string)`, the identifier not being set. -/
theorem C11_runs_ending_with_some_attributes :
    (DataSourceGoogleCloudBackupDRDataSourceRead rejectingStore freshData).outcome
      = .failure "Error reading DataSource: rejected" ∧
    keys (DataSourceGoogleCloudBackupDRDataSourceRead rejectingStore freshData).d.attrs
      = ["total_stored_bytes", "state", "etag", "backup_count", "update_time", "create_time",
          "name"] ∧
    (DataSourceGoogleCloudBackupDRDataSourceRead (answering namelessResponse)
      freshData).outcome
      = .panic "interface conversion: interface \x7b\x7d is nil, not string" ∧
    keys (DataSourceGoogleCloudBackupDRDataSourceRead (answering namelessResponse)
      freshData).d.attrs
      = ["data_source_backup_appliance_application", "data_source_gcp_resource",
          "backup_config_info", "total_stored_bytes", "state", "etag", "backup_count",
          "update_time", "create_time", "name"] ∧
    (DataSourceGoogleCloudBackupDRDataSourceRead (answering namelessResponse)
      freshData).d.id = "" :=
  ⟨rfl, rfl, rfl, rfl, rfl⟩

/-- C11, amended: every run of `Read` that returns success has had a
successful GET, has assigned each of the ten attributes `Read` writes the
flatten of its response field, and has set the identifier to the string
`name` of the response; every run without a successful GET (a failed
resolution step or a failed request) returns an error and leaves the store
as it found it.  Runs that stop after a successful GET, at a refused
assignment or at a panic, are not covered: they keep what was assigned
before. -/
theorem C11_success_assigns_all_and_early_failure_none (E : Collaborators)
    (d : ResourceData) :
    ((DataSourceGoogleCloudBackupDRDataSourceRead E d).outcome = .success →
      ∃ res name info gcp app,
        (∃ opts ∈ (DataSourceGoogleCloudBackupDRDataSourceRead E d).requests,
          E.SendRequest opts = .ok res) ∧
        index res "name" = .str name ∧
        flattenDataSourceBackupDRDataSourceBackupConfigInfo (index res "backupConfigInfo")
          = .ok info ∧
        flattenBackupDRDataSourceDataSourceGCPResource (index res "dataSourceGcpResource")
          = .ok gcp ∧
        flattenBackupDRDataSourceDataSourceBackupApplianceApplication
          (index res "dataSourceBackupApplianceApplication") = .ok app ∧
        (DataSourceGoogleCloudBackupDRDataSourceRead E d).d =
          ⟨("data_source_backup_appliance_application", app) ::
            ("data_source_gcp_resource", gcp) :: ("backup_config_info", info) ::
            ("total_stored_bytes",
              flattenDataSourceBackupDRDataSourceTotalStoredBytes
                (index res "totalStoredBytes")) ::
            ("state", flattenDataSourceBackupDRDataSourceState (index res "state")) ::
            ("etag", flattenDataSourceBackupDRDataSourceEtag (index res "etag")) ::
            ("backup_count",
              flattenDataSourceBackupDRDataSourceBackupCount (index res "backupCount")) ::
            ("update_time",
              flattenDataSourceBackupDRDataSourceUpdateTime (index res "updateTime")) ::
            ("create_time",
              flattenDataSourceBackupDRDataSourceCreateTime (index res "createTime")) ::
            ("name", flattenDataSourceBackupDRDataSourceName (index res "name")) ::
            d.attrs, name⟩) ∧
    ((∀ opts ∈ (DataSourceGoogleCloudBackupDRDataSourceRead E d).requests,
        ∀ res, E.SendRequest opts ≠ .ok res) →
      (DataSourceGoogleCloudBackupDRDataSourceRead E d).d = d ∧
      ∃ message,
        (DataSourceGoogleCloudBackupDRDataSourceRead E d).outcome = .failure message) := by
  refine ⟨fun h => ?_, read_without_response E d⟩
  obtain ⟨opts, res, calls, hmem, hres, hread⟩ := read_success E d h
  rw [hread] at h
  obtain ⟨info, gcp, app, name, hn, hi, hg, ha, hrun⟩ := readResponse_success E calls d res h
  refine ⟨res, name, info, gcp, app, ⟨opts, hmem, hres⟩, hn, hi, hg, ha, ?_⟩
  rw [hread, hrun]
  rfl

/-- C11 at the first scenario, which succeeds, and at a failing GET. -/
theorem C11_success_assigns_all_and_early_failure_none_witness :
    (DataSourceGoogleCloudBackupDRDataSourceRead (answering sampleResponse) freshData).outcome
      = .success ∧
    (∃ res name info gcp app,
      (∃ opts ∈ (DataSourceGoogleCloudBackupDRDataSourceRead (answering sampleResponse)
          freshData).requests, (answering sampleResponse).SendRequest opts = .ok res) ∧
      index res "name" = .str name ∧
      flattenDataSourceBackupDRDataSourceBackupConfigInfo (index res "backupConfigInfo")
        = .ok info ∧
      flattenBackupDRDataSourceDataSourceGCPResource (index res "dataSourceGcpResource")
        = .ok gcp ∧
      flattenBackupDRDataSourceDataSourceBackupApplianceApplication
        (index res "dataSourceBackupApplianceApplication") = .ok app ∧
      (DataSourceGoogleCloudBackupDRDataSourceRead (answering sampleResponse) freshData).d =
        ⟨("data_source_backup_appliance_application", app) ::
          ("data_source_gcp_resource", gcp) :: ("backup_config_info", info) ::
          ("total_stored_bytes",
            flattenDataSourceBackupDRDataSourceTotalStoredBytes
              (index res "totalStoredBytes")) ::
          ("state", flattenDataSourceBackupDRDataSourceState (index res "state")) ::
          ("etag", flattenDataSourceBackupDRDataSourceEtag (index res "etag")) ::
          ("backup_count",
            flattenDataSourceBackupDRDataSourceBackupCount (index res "backupCount")) ::
          ("update_time",
            flattenDataSourceBackupDRDataSourceUpdateTime (index res "updateTime")) ::
          ("create_time",
            flattenDataSourceBackupDRDataSourceCreateTime (index res "createTime")) ::
          ("name", flattenDataSourceBackupDRDataSourceName (index res "name")) ::
          freshData.attrs, name⟩) ∧
    (DataSourceGoogleCloudBackupDRDataSourceRead failingRequest freshData).d = freshData ∧
    ∃ message,
      (DataSourceGoogleCloudBackupDRDataSourceRead failingRequest freshData).outcome
        = .failure message :=
  ⟨rfl,
    (C11_success_assigns_all_and_early_failure_none (answering sampleResponse) freshData).1 rfl,
    (C11_success_assigns_all_and_early_failure_none failingRequest freshData).2
      (fun _ _ _ hres => by simp [failingRequest] at hres)⟩

end BackupDR
